import Mathlib

/-
Verification of the LiteX liblitesdcard driver (sdcard.c).

Shallow embedding: hardware is an oracle of event-register streams (one
stream per command issue / data wait / DMA-done poll site); driver state
threads counters for those sites plus a trace of observable actions
(register writes, command issues, completed waits). Busy-poll loops that
have no software bound in the C code are given a fuel argument; a result
of `none` means the corresponding C call never returns.
-/

set_option linter.unusedVariables false

namespace LiteXSdCard

/-- Result of an SD command or data phase, mirroring SD_OK, SD_TIMEOUT and
SD_CRCERROR from the driver's header. -/
inductive SDResult where
  | ok
  | timeout
  | crcError
deriving DecidableEq

/-- Observable hardware actions performed by the driver: CSR register
writes to the SD core, command issues (the argument/command/send register
writes done by sdcard_send_command, recorded as one event), and completed
waits (data-phase wait, DMA done polls). -/
inductive Ev where
  | cmdIssued (arg cmd rsp : Nat)
  | blockLenW (n : Nat)
  | blockCountW (n : Nat)
  | b2mEnable (n : Nat)
  | b2mBase (n : Nat)
  | b2mLen (n : Nat)
  | b2mDonePoll
  | m2bEnable (n : Nat)
  | m2bBase (n : Nat)
  | m2bLen (n : Nat)
  | m2bDonePoll
  | phyInitW (n : Nat)
  | phySettingsW (n : Nat)
  | clkDividerW (n : Nat)
  | dataDoneWait (r : SDResult)

/-- Hardware oracle. `cmdEvents k i` is the value returned by the i-th read
of the command-event CSR while waiting for the k-th issued command;
`dataEvents k i` likewise for the k-th data-phase wait; `b2mDone j i` and
`m2bDone j i` are the DMA done-flag reads in the j-th poll loop of the
respective engine; `respWord3 k` is word 3 of the response CSR as read
after k commands have been issued. -/
structure Hw where
  cmdEvents : Nat → Nat → Nat
  dataEvents : Nat → Nat → Nat
  b2mDone : Nat → Nat → Nat
  m2bDone : Nat → Nat → Nat
  respWord3 : Nat → Nat

/-- Driver-visible execution state: how many commands have been issued, how
many data waits and DMA done-poll loops have completed, and the trace of
observable actions so far. -/
structure St where
  cmdCount : Nat
  dataCount : Nat
  b2mPolls : Nat
  m2bPolls : Nat
  trace : List Ev

/-- Append one observable action to the trace. -/
def St.emit (s : St) (e : Ev) : St := { s with trace := s.trace ++ [e] }

/-- State at entry of the driver: nothing issued, empty trace. -/
def St.start : St := ⟨0, 0, 0, 0, []⟩

/-- Build-time capability switches (the SDCARD_CMD18_SUPPORT,
SDCARD_CMD23_SUPPORT, SDCARD_CMD25_SUPPORT preprocessor symbols). -/
structure Cfg where
  cmd18Support : Bool
  cmd23Support : Bool
  cmd25Support : Bool
deriving DecidableEq

/-- Configuration selected by the source file as shipped: CMD18 and CMD25
defined, CMD23 commented out. -/
def defaultCfg : Cfg := ⟨true, false, true⟩

/- Response-kind and transfer-direction encodings. Modelled from the spec:
they live in sdcard.h, which is not among the sources; the spec lists the
four response kinds {None, Short, Short-with-busy, Long} and the transfer
directions. The claims do not depend on the numeric values; distinct small
naturals are used. -/

/-- Modelled from the spec: response kind None (sdcard.h). -/
def SDCARD_CTRL_RESPONSE_NONE : Nat := 0

/-- Modelled from the spec: response kind Short (sdcard.h). -/
def SDCARD_CTRL_RESPONSE_SHORT : Nat := 1

/-- Modelled from the spec: response kind Long (sdcard.h). -/
def SDCARD_CTRL_RESPONSE_LONG : Nat := 2

/-- Modelled from the spec: response kind Short-with-busy (sdcard.h). -/
def SDCARD_CTRL_RESPONSE_SHORT_BUSY : Nat := 3

/-- Modelled from the spec: transfer direction Read (sdcard.h). -/
def SDCARD_CTRL_DATA_TRANSFER_READ : Nat := 1

/-- Modelled from the spec: transfer direction Write (sdcard.h). -/
def SDCARD_CTRL_DATA_TRANSFER_WRITE : Nat := 2

/-- The opcode-register response field used by the read-direction
transfer-bearing commands: (SDCARD_CTRL_DATA_TRANSFER_READ << 5) |
SDCARD_CTRL_RESPONSE_SHORT. -/
def dataReadShortRsp : Nat :=
  (SDCARD_CTRL_DATA_TRANSFER_READ <<< 5) ||| SDCARD_CTRL_RESPONSE_SHORT

/-- The opcode-register response field used by the write-direction
transfer-bearing commands: (SDCARD_CTRL_DATA_TRANSFER_WRITE << 5) |
SDCARD_CTRL_RESPONSE_SHORT. -/
def dataWriteShortRsp : Nat :=
  (SDCARD_CTRL_DATA_TRANSFER_WRITE <<< 5) ||| SDCARD_CTRL_RESPONSE_SHORT

/-- Modelled from the spec: the 4-bit / high-speed PHY setting SD_PHY_SPEED_4X
(sdcard.h). -/
def SD_PHY_SPEED_4X : Nat := 1

/-- Modelled from the spec: SD_SWITCH_SWITCH mode argument (sdcard.h). -/
def SD_SWITCH_SWITCH : Nat := 1

/-- Modelled from the spec: SD_GROUP_ACCESSMODE group argument (sdcard.h). -/
def SD_GROUP_ACCESSMODE : Nat := 0

/-- Modelled from the spec: SD_SPEED_SDR25 value argument (sdcard.h). -/
def SD_SPEED_SDR25 : Nat := 1

/-- SDCARD_CLK_FREQ_INIT default from sdcard.c. -/
def SDCARD_CLK_FREQ_INIT : Nat := 400000

/-- SDCARD_CLK_FREQ default from sdcard.c. -/
def SDCARD_CLK_FREQ : Nat := 25000000

/-- Core of every busy-poll loop on an event/done register: read the stream
until a value with bit 0 set appears, returning that value; `none` when the
fuel runs out (the C loop would still be spinning). -/
def poll_until_done (stream : Nat → Nat) : Nat → Option Nat
  | 0 => none
  | fuel + 1 =>
    if stream 0 &&& 0x1 ≠ 0 then some (stream 0)
    else poll_until_done (fun i => stream (i + 1)) fuel

/-- sdcard_wait_cmd_done: spin on the command-event CSR until bit 0 (done),
then map bit 2 to Timeout and bit 3 to CrcError, else Ok. -/
def sdcard_wait_cmd_done (stream : Nat → Nat) (fuel : Nat) : Option SDResult :=
  match poll_until_done stream fuel with
  | none => none
  | some event =>
    if event &&& 0x4 ≠ 0 then some SDResult.timeout
    else if event &&& 0x8 ≠ 0 then some SDResult.crcError
    else some SDResult.ok

/-- sdcard_wait_data_done: same loop and flag mapping on the data-event CSR. -/
def sdcard_wait_data_done (stream : Nat → Nat) (fuel : Nat) : Option SDResult :=
  match poll_until_done stream fuel with
  | none => none
  | some event =>
    if event &&& 0x4 ≠ 0 then some SDResult.timeout
    else if event &&& 0x8 ≠ 0 then some SDResult.crcError
    else some SDResult.ok

/-- sdcard_send_command: write the argument, command (cmd << 8 | rsp) and
send CSRs — recorded as one `cmdIssued` trace event — then wait for the
command-event done flag of this (the `s.cmdCount`-th) command. -/
def sdcard_send_command (hw : Hw) (arg cmd rsp : Nat) (s : St) (wfuel : Nat) :
    Option (SDResult × St) :=
  match sdcard_wait_cmd_done (hw.cmdEvents s.cmdCount) wfuel with
  | none => none
  | some r =>
    some (r, { s with cmdCount := s.cmdCount + 1,
                      trace := s.trace ++ [Ev.cmdIssued arg cmd rsp] })

/-- State-level wrapper of sdcard_wait_data_done: the wait uses the stream
of the `s.dataCount`-th data phase and records its completion. -/
def wait_data_done_st (hw : Hw) (s : St) (wfuel : Nat) : Option (SDResult × St) :=
  match sdcard_wait_data_done (hw.dataEvents s.dataCount) wfuel with
  | none => none
  | some r =>
    some (r, { s with dataCount := s.dataCount + 1,
                      trace := s.trace ++ [Ev.dataDoneWait r] })

/-- sdcard_go_idle: CMD0, no response. -/
def sdcard_go_idle (hw : Hw) (s : St) (wfuel : Nat) : Option (SDResult × St) :=
  sdcard_send_command hw 0 0 SDCARD_CTRL_RESPONSE_NONE s wfuel

/-- sdcard_send_ext_csd: CMD8, argument 0x1aa, short response. -/
def sdcard_send_ext_csd (hw : Hw) (s : St) (wfuel : Nat) : Option (SDResult × St) :=
  sdcard_send_command hw 0x000001aa 8 SDCARD_CTRL_RESPONSE_SHORT s wfuel

/-- sdcard_app_cmd: CMD55 with the RCA in the high 16 bits, short response. -/
def sdcard_app_cmd (hw : Hw) (rca : Nat) (s : St) (wfuel : Nat) : Option (SDResult × St) :=
  sdcard_send_command hw (rca <<< 16) 55 SDCARD_CTRL_RESPONSE_SHORT s wfuel

/-- sdcard_app_send_op_cond: ACMD41, argument 0x10ff8000 with the
high-capacity bits or-ed in when hcs is set, short-busy response. -/
def sdcard_app_send_op_cond (hw : Hw) (hcs : Bool) (s : St) (wfuel : Nat) :
    Option (SDResult × St) :=
  sdcard_send_command hw (if hcs then 0x10ff8000 ||| 0x60000000 else 0x10ff8000)
    41 SDCARD_CTRL_RESPONSE_SHORT_BUSY s wfuel

/-- sdcard_all_send_cid: CMD2, long response. -/
def sdcard_all_send_cid (hw : Hw) (s : St) (wfuel : Nat) : Option (SDResult × St) :=
  sdcard_send_command hw 0 2 SDCARD_CTRL_RESPONSE_LONG s wfuel

/-- sdcard_set_relative_address: CMD3, short response. -/
def sdcard_set_relative_address (hw : Hw) (s : St) (wfuel : Nat) :
    Option (SDResult × St) :=
  sdcard_send_command hw 0 3 SDCARD_CTRL_RESPONSE_SHORT s wfuel

/-- sdcard_send_cid: CMD10 addressed by RCA, long response. -/
def sdcard_send_cid (hw : Hw) (rca : Nat) (s : St) (wfuel : Nat) :
    Option (SDResult × St) :=
  sdcard_send_command hw (rca <<< 16) 10 SDCARD_CTRL_RESPONSE_LONG s wfuel

/-- sdcard_send_csd: CMD9 addressed by RCA, long response. -/
def sdcard_send_csd (hw : Hw) (rca : Nat) (s : St) (wfuel : Nat) :
    Option (SDResult × St) :=
  sdcard_send_command hw (rca <<< 16) 9 SDCARD_CTRL_RESPONSE_LONG s wfuel

/-- sdcard_select_card: CMD7 addressed by RCA, short-busy response. -/
def sdcard_select_card (hw : Hw) (rca : Nat) (s : St) (wfuel : Nat) :
    Option (SDResult × St) :=
  sdcard_send_command hw (rca <<< 16) 7 SDCARD_CTRL_RESPONSE_SHORT_BUSY s wfuel

/-- sdcard_app_set_bus_width: ACMD6 with argument 2 (4-bit bus), short
response. -/
def sdcard_app_set_bus_width (hw : Hw) (s : St) (wfuel : Nat) :
    Option (SDResult × St) :=
  sdcard_send_command hw 2 6 SDCARD_CTRL_RESPONSE_SHORT s wfuel

/-- sdcard_app_set_blocklen: CMD16 with the block length as argument, short
response. -/
def sdcard_app_set_blocklen (hw : Hw) (blocklen : Nat) (s : St) (wfuel : Nat) :
    Option (SDResult × St) :=
  sdcard_send_command hw blocklen 16 SDCARD_CTRL_RESPONSE_SHORT s wfuel

/-- sdcard_stop_transmission: CMD12, short-busy response. -/
def sdcard_stop_transmission (hw : Hw) (s : St) (wfuel : Nat) :
    Option (SDResult × St) :=
  sdcard_send_command hw 0 12 SDCARD_CTRL_RESPONSE_SHORT_BUSY s wfuel

/-- sdcard_set_block_count: CMD23 with the block count as argument, short
response. -/
def sdcard_set_block_count (hw : Hw) (blockcnt : Nat) (s : St) (wfuel : Nat) :
    Option (SDResult × St) :=
  sdcard_send_command hw blockcnt 23 SDCARD_CTRL_RESPONSE_SHORT s wfuel

/-- sdcard_decode_rca: bits 16-31 of response word 3. -/
def sdcard_decode_rca (respWord3 : Nat) : Nat :=
  (respWord3 >>> 16) &&& 0xffff

/-- The unbounded `while (sdcard_send_command(...) != SD_OK);` retry pattern
used by SWITCH_FUNC, APP_SEND_SCR and the four block read/write commands,
with a fuel bound on the number of attempts. -/
def retry_send_until_ok (hw : Hw) (arg cmd rsp : Nat) (wfuel : Nat) :
    Nat → St → Option St
  | 0, _ => none
  | rfuel + 1, s =>
    match sdcard_send_command hw arg cmd rsp s wfuel with
    | none => none
    | some (r, s') =>
      if r = SDResult.ok then some s'
      else retry_send_until_ok hw arg cmd rsp wfuel rfuel s'

/-- The SWITCH_FUNC argument computation of sdcard_switch: set the mode bit,
fill the function groups with 0xffffff, clear this group's nibble and or in
the requested value. Arithmetic is on 32-bit unsigned values (explicit
mod 2^32, with ~x as xor against 2^32 - 1). -/
def switchArg (mode group value : Nat) : Nat :=
  let arg0 := ((mode <<< 31) % 2 ^ 32) ||| 0xffffff
  let arg1 := arg0 &&& ((2 ^ 32 - 1) ^^^ ((0xf <<< (group * 4)) % 2 ^ 32))
  arg1 ||| ((value <<< (group * 4)) % 2 ^ 32)

/-- sdcard_switch: build the SWITCH_FUNC argument, program block length 64
and block count 1, retry CMD6 until Ok, then wait for the data phase. -/
def sdcard_switch (hw : Hw) (mode group value : Nat) (s : St) (wfuel rfuel : Nat) :
    Option (SDResult × St) :=
  let s := (s.emit (Ev.blockLenW 64)).emit (Ev.blockCountW 1)
  match retry_send_until_ok hw (switchArg mode group value) 6 dataReadShortRsp wfuel rfuel s with
  | none => none
  | some s' => wait_data_done_st hw s' wfuel

/-- sdcard_app_send_scr: program block length 8 and block count 1, retry
CMD51 until Ok, then wait for the data phase. -/
def sdcard_app_send_scr (hw : Hw) (s : St) (wfuel rfuel : Nat) :
    Option (SDResult × St) :=
  let s := (s.emit (Ev.blockLenW 8)).emit (Ev.blockCountW 1)
  match retry_send_until_ok hw 0 51 dataReadShortRsp wfuel rfuel s with
  | none => none
  | some s' => wait_data_done_st hw s' wfuel

/-- sdcard_write_single_block: program block length 512 and block count 1,
retry CMD24 until Ok, and return SD_OK without any data-phase wait. -/
def sdcard_write_single_block (hw : Hw) (blockaddr : Nat) (s : St)
    (wfuel rfuel : Nat) : Option (SDResult × St) :=
  let s := (s.emit (Ev.blockLenW 512)).emit (Ev.blockCountW 1)
  match retry_send_until_ok hw blockaddr 24 dataWriteShortRsp wfuel rfuel s with
  | none => none
  | some s' => some (SDResult.ok, s')

/-- sdcard_write_multiple_block: program block length 512 and the block
count, retry CMD25 until Ok, and return SD_OK without any data-phase wait. -/
def sdcard_write_multiple_block (hw : Hw) (blockaddr blockcnt : Nat) (s : St)
    (wfuel rfuel : Nat) : Option (SDResult × St) :=
  let s := (s.emit (Ev.blockLenW 512)).emit (Ev.blockCountW blockcnt)
  match retry_send_until_ok hw blockaddr 25 dataWriteShortRsp wfuel rfuel s with
  | none => none
  | some s' => some (SDResult.ok, s')

/-- sdcard_read_single_block: program block length 512 and block count 1,
retry CMD17 until Ok, then wait for the data phase. -/
def sdcard_read_single_block (hw : Hw) (blockaddr : Nat) (s : St)
    (wfuel rfuel : Nat) : Option (SDResult × St) :=
  let s := (s.emit (Ev.blockLenW 512)).emit (Ev.blockCountW 1)
  match retry_send_until_ok hw blockaddr 17 dataReadShortRsp wfuel rfuel s with
  | none => none
  | some s' => wait_data_done_st hw s' wfuel

/-- sdcard_read_multiple_block: program block length 512 and the block
count, retry CMD18 until Ok, then wait for the data phase. -/
def sdcard_read_multiple_block (hw : Hw) (blockaddr blockcnt : Nat) (s : St)
    (wfuel rfuel : Nat) : Option (SDResult × St) :=
  let s := (s.emit (Ev.blockLenW 512)).emit (Ev.blockCountW blockcnt)
  match retry_send_until_ok hw blockaddr 18 dataReadShortRsp wfuel rfuel s with
  | none => none
  | some s' => wait_data_done_st hw s' wfuel

/-- The divider computed by sdcard_set_clk_freq: DIV_ROUND_UP of the system
clock by the target frequency on 32-bit unsigned arithmetic (256 when the
target is 0), then min(max(divider, 2), 256). -/
def sdcard_set_clk_freq_divider (sysClk clk_freq : Nat) : Nat :=
  let divider := if clk_freq ≠ 0 then ((sysClk + clk_freq - 1) % 2 ^ 32) / clk_freq else 256
  min (max divider 2) 256

/-- The effective frequency sdcard_set_clk_freq reports when `show` is set:
CONFIG_CLOCK_FREQUENCY / ((divider + 1) & ~1), with ~1 on uint32_t being
0xfffffffe. -/
def sdcard_set_clk_freq_effective (sysClk clk_freq : Nat) : Nat :=
  sysClk / ((sdcard_set_clk_freq_divider sysClk clk_freq + 1) &&& 0xfffffffe)

/-- sdcard_set_clk_freq as a state action: compute the divider and write the
PHY clocker divider CSR. -/
def sdcard_set_clk_freq_st (sysClk clk_freq : Nat) (s : St) : St :=
  s.emit (Ev.clkDividerW (sdcard_set_clk_freq_divider sysClk clk_freq))

/-- The `while ((sdcard_block2mem_dma_done_read() & 0x1) == 0);` poll of the
read-path (block→memory) DMA engine's done flag. -/
def wait_b2m_dma_done (hw : Hw) (s : St) (dfuel : Nat) : Option St :=
  match poll_until_done (hw.b2mDone s.b2mPolls) dfuel with
  | none => none
  | some _ =>
    some { s with b2mPolls := s.b2mPolls + 1, trace := s.trace ++ [Ev.b2mDonePoll] }

/-- The `while ((sdcard_mem2block_dma_done_read() & 0x1) == 0);` poll of the
write-path (memory→block) DMA engine's done flag. -/
def wait_m2b_dma_done (hw : Hw) (s : St) (dfuel : Nat) : Option St :=
  match poll_until_done (hw.m2bDone s.m2bPolls) dfuel with
  | none => none
  | some _ =>
    some { s with m2bPolls := s.m2bPolls + 1, trace := s.trace ++ [Ev.m2bDonePoll] }

/-- The per-iteration chunk size of the transfer loops: the whole remaining
count when the multi-block command is available, else 1. -/
def chunkBlocks (multi : Bool) (count : Nat) : Nat :=
  if multi then count else 1

/-- One structural-recursion bound on the sdcard_read / sdcard_write while
loops. Each iteration consumes `nblocks ≥ 1` of the remaining count, so the
loop performs at most `count` iterations and the wrappers below pass
`count` itself as the bound, which therefore never runs out. -/
def sdcard_read_loop (hw : Hw) (cfg : Cfg) (wfuel rfuel dfuel : Nat) :
    Nat → Nat → Nat → Nat → St → Option St
  | 0, block, count, buf, s => if count = 0 then some s else none
  | iter + 1, block, count, buf, s =>
    if count = 0 then some s
    else
      let nblocks := chunkBlocks cfg.cmd18Support count
      let s1 := ((((s.emit (Ev.b2mEnable 0)).emit (Ev.b2mBase buf)).emit
        (Ev.b2mLen (512 * nblocks))).emit (Ev.b2mEnable 1))
      let afterCnt : Option St :=
        if cfg.cmd23Support then
          (sdcard_set_block_count hw nblocks s1 wfuel).map Prod.snd
        else some s1
      match afterCnt with
      | none => none
      | some s2 =>
        let afterRead : Option (SDResult × St) :=
          if nblocks > 1 then sdcard_read_multiple_block hw block nblocks s2 wfuel rfuel
          else sdcard_read_single_block hw block s2 wfuel rfuel
        match afterRead with
        | none => none
        | some (_, s3) =>
          match wait_b2m_dma_done hw s3 dfuel with
          | none => none
          | some s4 =>
            let afterStop : Option St :=
              if nblocks > 1 then (sdcard_stop_transmission hw s4 wfuel).map Prod.snd
              else some s4
            match afterStop with
            | none => none
            | some s5 =>
              sdcard_read_loop hw cfg wfuel rfuel dfuel iter (block + nblocks)
                (count - nblocks) (buf + 512 * nblocks) s5

/-- sdcard_read: per chunk, disable/program/enable the block→memory DMA
engine, optionally issue SET_BLOCK_COUNT, issue the (multi- or single-)
block read command, poll the DMA done flag, then issue STOP_TRANSMISSION
when more than one block was read, and advance. The cache flush after the
loop touches no SD-core register and is not traced. -/
def sdcard_read (hw : Hw) (cfg : Cfg) (wfuel rfuel dfuel : Nat)
    (block count buf : Nat) (s : St) : Option St :=
  sdcard_read_loop hw cfg wfuel rfuel dfuel count block count buf s

/-- Structural-recursion form of the sdcard_write while loop, with the same
iteration bound convention as sdcard_read_loop. -/
def sdcard_write_loop (hw : Hw) (cfg : Cfg) (wfuel rfuel dfuel : Nat) :
    Nat → Nat → Nat → Nat → St → Option St
  | 0, block, count, buf, s => if count = 0 then some s else none
  | iter + 1, block, count, buf, s =>
    if count = 0 then some s
    else
      let nblocks := chunkBlocks cfg.cmd25Support count
      let s1 := ((((s.emit (Ev.m2bEnable 0)).emit (Ev.m2bBase buf)).emit
        (Ev.m2bLen (512 * nblocks))).emit (Ev.m2bEnable 1))
      let afterCnt : Option St :=
        if cfg.cmd23Support then
          (sdcard_set_block_count hw nblocks s1 wfuel).map Prod.snd
        else some s1
      match afterCnt with
      | none => none
      | some s2 =>
        let afterWrite : Option (SDResult × St) :=
          if nblocks > 1 then sdcard_write_multiple_block hw block nblocks s2 wfuel rfuel
          else sdcard_write_single_block hw block s2 wfuel rfuel
        match afterWrite with
        | none => none
        | some (_, s3) =>
          let afterStop : Option St :=
            if nblocks > 1 then (sdcard_stop_transmission hw s3 wfuel).map Prod.snd
            else some s3
          match afterStop with
          | none => none
          | some s4 =>
            match wait_m2b_dma_done hw s4 dfuel with
            | none => none
            | some s5 =>
              sdcard_write_loop hw cfg wfuel rfuel dfuel iter (block + nblocks)
                (count - nblocks) (buf + 512 * nblocks) s5

/-- sdcard_write: per chunk, disable/program/enable the memory→block DMA
engine, optionally issue SET_BLOCK_COUNT, issue the (multi- or single-)
block write command, then issue STOP_TRANSMISSION when more than one block
was written, then poll the DMA done flag, and advance. -/
def sdcard_write (hw : Hw) (cfg : Cfg) (wfuel rfuel dfuel : Nat)
    (block count buf : Nat) (s : St) : Option St :=
  sdcard_write_loop hw cfg wfuel rfuel dfuel count block count buf s

/-- The `for (timeout=1000; timeout>0; timeout--)` GO_IDLE loop of
sdcard_init: pulse the PHY initialization control, attempt GO_IDLE, break
on Ok. Returns the remaining timeout counter (0 when the budget was
exhausted) together with the state. -/
def sdcard_init_idle_loop (hw : Hw) (wfuel : Nat) : Nat → St → Option (Nat × St)
  | 0, s => some (0, s)
  | t + 1, s =>
    let s := s.emit (Ev.phyInitW 1)
    match sdcard_go_idle hw s wfuel with
    | none => none
    | some (r, s') =>
      if r = SDResult.ok then some (t + 1, s')
      else sdcard_init_idle_loop hw wfuel t s'

/-- The `for (timeout=1000; timeout>0; timeout--)` operating-condition loop
of sdcard_init: APP_CMD(0) (result ignored), then APP_SEND_OP_COND(1); on
Ok, read response word 3 and break when bit 31 (busy/ready) is set. -/
def sdcard_init_opcond_loop (hw : Hw) (wfuel : Nat) : Nat → St → Option (Nat × St)
  | 0, s => some (0, s)
  | t + 1, s =>
    match sdcard_app_cmd hw 0 s wfuel with
    | none => none
    | some (_, s1) =>
      match sdcard_app_send_op_cond hw true s1 wfuel with
      | none => none
      | some (r, s2) =>
        if r = SDResult.ok ∧ hw.respWord3 s2.cmdCount &&& 0x80000000 ≠ 0 then
          some (t + 1, s2)
        else sdcard_init_opcond_loop hw wfuel t s2

/-- The tail of sdcard_init from the point where the C code has bound the
relative card address: SEND_CID and SEND_CSD, card selection, 4-bit bus
width (APP_CMD then ACMD6 and the PHY settings write), the speed switch,
the SCR read (APP_CMD then ACMD51) and SET_BLOCKLEN(512). Split out of
sdcard_init only so that the embedding is let-free; `rca` is the value the
C code stores in its local variable. -/
def sdcard_init_after_rca (hw : Hw) (wfuel rfuel : Nat) (rca : Nat) (s : St) :
    Option (Nat × St) :=
  match sdcard_send_cid hw rca s wfuel with
  | none => none
  | some (r, s) =>
  if r ≠ SDResult.ok then some (0, s) else
  match sdcard_send_csd hw rca s wfuel with
  | none => none
  | some (r, s) =>
  if r ≠ SDResult.ok then some (0, s) else
  match sdcard_select_card hw rca s wfuel with
  | none => none
  | some (r, s) =>
  if r ≠ SDResult.ok then some (0, s) else
  match sdcard_app_cmd hw rca s wfuel with
  | none => none
  | some (r, s) =>
  if r ≠ SDResult.ok then some (0, s) else
  match sdcard_app_set_bus_width hw s wfuel with
  | none => none
  | some (r, s) =>
  if r ≠ SDResult.ok then some (0, s) else
  match sdcard_switch hw SD_SWITCH_SWITCH SD_GROUP_ACCESSMODE SD_SPEED_SDR25
      (s.emit (Ev.phySettingsW SD_PHY_SPEED_4X)) wfuel rfuel with
  | none => none
  | some (r, s) =>
  if r ≠ SDResult.ok then some (0, s) else
  match sdcard_app_cmd hw rca s wfuel with
  | none => none
  | some (r, s) =>
  if r ≠ SDResult.ok then some (0, s) else
  match sdcard_app_send_scr hw s wfuel rfuel with
  | none => none
  | some (r, s) =>
  if r ≠ SDResult.ok then some (0, s) else
  match sdcard_app_set_blocklen hw 512 s wfuel with
  | none => none
  | some (r, s) =>
  if r ≠ SDResult.ok then some (0, s) else
  some (1, s)

/-- sdcard_init: the full bring-up sequence. Returns the C result (1 on
success, 0 on failure) with the final state; `none` when some unbounded
poll never completed. `sysClk` is the CONFIG_CLOCK_FREQUENCY build
constant. The initialization clock is programmed before the GO_IDLE loop
and the operational clock before the operating-condition loop; once
SET_RELATIVE_ADDRESS succeeds the RCA is decoded from response word 3 and
the remaining steps run in sdcard_init_after_rca. -/
def sdcard_init (sysClk : Nat) (hw : Hw) (wfuel rfuel : Nat) (s : St) :
    Option (Nat × St) :=
  match sdcard_init_idle_loop hw wfuel 1000
      (sdcard_set_clk_freq_st sysClk SDCARD_CLK_FREQ_INIT s) with
  | none => none
  | some (timeout, s) =>
  if timeout = 0 then some (0, s) else
  match sdcard_send_ext_csd hw s wfuel with
  | none => none
  | some (r, s) =>
  if r ≠ SDResult.ok then some (0, s) else
  match sdcard_init_opcond_loop hw wfuel 1000
      (sdcard_set_clk_freq_st sysClk SDCARD_CLK_FREQ s) with
  | none => none
  | some (timeout, s) =>
  if timeout = 0 then some (0, s) else
  match sdcard_all_send_cid hw s wfuel with
  | none => none
  | some (r, s) =>
  if r ≠ SDResult.ok then some (0, s) else
  match sdcard_set_relative_address hw s wfuel with
  | none => none
  | some (r, s) =>
  if r ≠ SDResult.ok then some (0, s) else
  sdcard_init_after_rca hw wfuel rfuel
    (sdcard_decode_rca (hw.respWord3 s.cmdCount)) s

/-- Modelled from the spec: STA_NOINIT from FatFs diskio.h, which is not
among the sources; a non-zero "not initialized" disk status value. -/
def STA_NOINIT : Nat := 1

/-- Initial value of the driver's persistent `sdcardstatus` variable. -/
def sdcardstatus_start : Nat := STA_NOINIT

/-- sd_disk_status: non-zero drive numbers report STA_NOINIT, drive 0
reports the stored status. No side effects. -/
def sd_disk_status (sdcardstatus : Nat) (drv : Nat) : Nat :=
  if drv ≠ 0 then STA_NOINIT else sdcardstatus

/-- sd_disk_initialize: non-zero drive numbers report STA_NOINIT without
touching anything; for drive 0, when the stored status is non-zero the
bring-up runs and the status becomes 0 on success and STA_NOINIT on
failure; the (possibly updated) stored status is returned. The result is
(returned status, new stored status, new hardware state). -/
def sd_disk_initialize (sysClk : Nat) (hw : Hw) (wfuel rfuel : Nat)
    (sdcardstatus : Nat) (drv : Nat) (s : St) : Option (Nat × Nat × St) :=
  if drv ≠ 0 then some (STA_NOINIT, sdcardstatus, s)
  else if sdcardstatus ≠ 0 then
    match sdcard_init sysClk hw wfuel rfuel s with
    | none => none
    | some (r, s') =>
      let newstatus := if r ≠ 0 then 0 else STA_NOINIT
      some (newstatus, newstatus, s')
  else some (sdcardstatus, sdcardstatus, s)

/-- Spec-side mapping of a command/data event value to a result, following
the spec's words: timeout flag (bit 2) set yields Timeout, CRC flag
(bit 3) set yields CrcError, otherwise Ok. -/
def specEventResult (event : Nat) : SDResult :=
  if event &&& 0x4 ≠ 0 then SDResult.timeout
  else if event &&& 0x8 ≠ 0 then SDResult.crcError
  else SDResult.ok

/-- Trace predicate: a command-issue event with the given command number. -/
def isCmdNum (n : Nat) : Ev → Bool
  | Ev.cmdIssued _ c _ => c == n
  | _ => false

/-- Trace predicate: the read-path DMA done poll. -/
def isB2mPollEv : Ev → Bool
  | Ev.b2mDonePoll => true
  | _ => false

/-- Trace predicate: the write-path DMA done poll. -/
def isM2bPollEv : Ev → Bool
  | Ev.m2bDonePoll => true
  | _ => false

/-- Trace predicate: a completed data-phase wait. -/
def isDataWaitEv : Ev → Bool
  | Ev.dataDoneWait _ => true
  | _ => false

/-- Trace predicate: a block-length register write of the given value. -/
def isBlockLenW (n : Nat) : Ev → Bool
  | Ev.blockLenW m => m == n
  | _ => false

/-- Trace predicate: a block-count register write of the given value. -/
def isBlockCountW (n : Nat) : Ev → Bool
  | Ev.blockCountW m => m == n
  | _ => false

/-- The first event satisfying p occurs strictly before the first event
satisfying q, and both occur. -/
def beforeFirst (p q : Ev → Bool) : List Ev → Bool
  | [] => false
  | e :: tr => if q e then false else if p e then tr.any q else beforeFirst p q tr

/-- Arguments of all command-issue events with the given command number, in
trace order. -/
def argsOfCmd (n : Nat) (tr : List Ev) : List Nat :=
  tr.filterMap fun e =>
    match e with
    | Ev.cmdIssued a c _ => if c == n then some a else none
    | _ => none

/-- Byte lengths programmed into the read-path DMA engine, in trace order. -/
def b2mLenVals (tr : List Ev) : List Nat :=
  tr.filterMap fun e =>
    match e with
    | Ev.b2mLen n => some n
    | _ => none

/-- Hardware oracle on which every poll immediately reports done with no
error flags, and the response word 3 has all bits set (busy/ready bit set,
RCA field 0xffff). -/
def okRespHw : Hw :=
  ⟨fun _ _ => 1, fun _ _ => 1, fun _ _ => 1, fun _ _ => 1, fun _ => 0xffffffff⟩

/-- Hardware oracle that never sets any done flag: every event read is 0. -/
def neverDoneHw : Hw :=
  ⟨fun _ _ => 0, fun _ _ => 0, fun _ _ => 0, fun _ _ => 0, fun _ => 0⟩

/-- Hardware oracle on which every command and data event reads done with
the timeout flag (0x5), while the DMA done flags behave normally. -/
def timeoutEventHw : Hw :=
  ⟨fun _ _ => 0x5, fun _ _ => 0x5, fun _ _ => 1, fun _ _ => 1, fun _ => 0⟩

/-- A representative CONFIG_CLOCK_FREQUENCY value (100 MHz) for concrete
runs whose claims do not depend on it. -/
def sysClkEx : Nat := 100000000

/-- The bring-up at the Disk Adapter entry point diverges on this hardware:
for every fuel bound, drive-0 sd_disk_initialize from the initial status
and state never returns. -/
def diskInitDiverges (sysClk : Nat) (hw : Hw) : Prop :=
  ∀ wfuel rfuel, sd_disk_initialize sysClk hw wfuel rfuel sdcardstatus_start 0 St.start = none

/-- Concrete read-path run used for the C1 analysis: a 2-block read on the
shipped configuration against the always-ok hardware. -/
def readRunC1 : Option St :=
  sdcard_read okRespHw defaultCfg 1 1 1 0 2 0 St.start

/-- Concrete write-path run used for the C3 analysis: a 2-block write on
the shipped configuration against the always-ok hardware. -/
def writeRunC3 : Option St :=
  sdcard_write okRespHw defaultCfg 1 1 1 0 2 0 St.start

/-- Concrete write-path run for Scenario D: write(buffer, 0, 4) with
multi-block write enabled, against the always-ok hardware. -/
def writeRunC4 : Option St :=
  sdcard_write okRespHw defaultCfg 1 1 1 0 4 0 St.start

/-- Concrete read-path run for Scenario C: read(buffer, 100, 10) with
multi-block read enabled, against the always-ok hardware. -/
def readRunC5 : Option St :=
  sdcard_read okRespHw defaultCfg 1 1 1 100 10 0 St.start

/-- Concrete single-block read run for the C5 witness: read(buffer, 0, 1). -/
def readRunC5single : Option St :=
  sdcard_read okRespHw defaultCfg 1 1 1 0 1 0 St.start

/-- Concrete successful bring-up run for the C8 witness. -/
def initRunOk : Option (Nat × St) :=
  sdcard_init sysClkEx okRespHw 1 1 St.start

/-- Constant event stream reading 9 (done flag plus CRC flag) forever. -/
def const9Stream : Nat → Nat := fun _ => 9

/-- Hardware oracle on which every command and data event reads done with
the CRC flag (9), while the DMA done flags behave normally. -/
def crcEventHw : Hw :=
  ⟨fun _ _ => 9, fun _ _ => 9, fun _ _ => 1, fun _ _ => 1, fun _ => 0⟩

/-- The events of one failed GO_IDLE attempt of the bring-up idle loop: the
PHY initialization pulse followed by the CMD0 issue. -/
def idleAttempt : List Ev :=
  [Ev.phyInitW 1, Ev.cmdIssued 0 0 SDCARD_CTRL_RESPONSE_NONE]

/-- The final trace of a bring-up run on which every GO_IDLE attempt
reports a command timeout: the initialization clock divider write followed
by 1000 failed GO_IDLE attempts. -/
def idleFailTrace : List Ev :=
  Ev.clkDividerW (sdcard_set_clk_freq_divider sysClkEx SDCARD_CLK_FREQ_INIT)
    :: (List.replicate 1000 idleAttempt).flatten

/-- Number of GO_IDLE (CMD0) issues in a trace. -/
def goIdleCount (tr : List Ev) : Nat :=
  tr.countP (isCmdNum 0)

/-- Every event of the trace belongs to the SetInitClock / ToggleAndIdle
bring-up steps: a clock-divider write, a PHY initialization pulse, or a
GO_IDLE command; in particular no later bring-up command was issued. -/
def initOnlyIdleEvs (tr : List Ev) : Bool :=
  tr.all fun e =>
    match e with
    | Ev.cmdIssued _ c _ => c == 0
    | Ev.clkDividerW _ => true
    | Ev.phyInitW _ => true
    | _ => false

/-! Helper lemmas. -/

theorem poll_until_done_bit0 (stream : Nat → Nat) :
    ∀ fuel event, poll_until_done stream fuel = some event → event &&& 0x1 ≠ 0 := by
  intro fuel
  induction fuel generalizing stream with
  | zero => intro event h; simp [poll_until_done] at h
  | succ n ih =>
    intro event h
    rw [poll_until_done] at h
    split at h
    · rename_i h0
      injection h with h2
      rw [← h2]
      exact h0
    · exact ih (fun i => stream (i + 1)) event h

theorem poll_until_done_none (stream : Nat → Nat)
    (hz : ∀ i, stream i &&& 0x1 = 0) :
    ∀ fuel, poll_until_done stream fuel = none := by
  intro fuel
  induction fuel generalizing stream with
  | zero => simp [poll_until_done]
  | succ n ih =>
    simp [poll_until_done, hz 0]
    exact ih (fun i => stream (i + 1)) (fun i => hz (i + 1))

theorem sdcard_send_command_eq (hw : Hw) (arg cmd rsp : Nat) (s : St) (wfuel : Nat)
    (r : SDResult) (s' : St)
    (h : sdcard_send_command hw arg cmd rsp s wfuel = some (r, s')) :
    s' = { s with cmdCount := s.cmdCount + 1,
                  trace := s.trace ++ [Ev.cmdIssued arg cmd rsp] } := by
  unfold sdcard_send_command at h
  split at h
  · exact absurd h (by simp)
  · simp only [Option.some.injEq, Prod.mk.injEq] at h
    exact h.2.symm

theorem sdcard_stop_transmission_eq (hw : Hw) (s : St) (wfuel : Nat)
    (r : SDResult) (s' : St)
    (h : sdcard_stop_transmission hw s wfuel = some (r, s')) :
    s' = { s with cmdCount := s.cmdCount + 1,
                  trace := s.trace ++ [Ev.cmdIssued 0 12 SDCARD_CTRL_RESPONSE_SHORT_BUSY] } :=
  sdcard_send_command_eq hw 0 12 SDCARD_CTRL_RESPONSE_SHORT_BUSY s wfuel r s' h

theorem sdcard_set_block_count_eq (hw : Hw) (n : Nat) (s : St) (wfuel : Nat)
    (r : SDResult) (s' : St)
    (h : sdcard_set_block_count hw n s wfuel = some (r, s')) :
    s' = { s with cmdCount := s.cmdCount + 1,
                  trace := s.trace ++ [Ev.cmdIssued n 23 SDCARD_CTRL_RESPONSE_SHORT] } :=
  sdcard_send_command_eq hw n 23 SDCARD_CTRL_RESPONSE_SHORT s wfuel r s' h

theorem wait_data_done_st_eq (hw : Hw) (s : St) (wfuel : Nat) (r : SDResult) (s' : St)
    (h : wait_data_done_st hw s wfuel = some (r, s')) :
    s' = { s with dataCount := s.dataCount + 1,
                  trace := s.trace ++ [Ev.dataDoneWait r] } := by
  unfold wait_data_done_st at h
  split at h
  · exact absurd h (by simp)
  · simp only [Option.some.injEq, Prod.mk.injEq] at h
    obtain ⟨h1, h2⟩ := h
    rw [← h2, h1]

theorem wait_b2m_dma_done_eq (hw : Hw) (s : St) (dfuel : Nat) (s' : St)
    (h : wait_b2m_dma_done hw s dfuel = some s') :
    s' = { s with b2mPolls := s.b2mPolls + 1,
                  trace := s.trace ++ [Ev.b2mDonePoll] } := by
  unfold wait_b2m_dma_done at h
  split at h
  · exact absurd h (by simp)
  · simp only [Option.some.injEq] at h
    exact h.symm

theorem wait_m2b_dma_done_eq (hw : Hw) (s : St) (dfuel : Nat) (s' : St)
    (h : wait_m2b_dma_done hw s dfuel = some s') :
    s' = { s with m2bPolls := s.m2bPolls + 1,
                  trace := s.trace ++ [Ev.m2bDonePoll] } := by
  unfold wait_m2b_dma_done at h
  split at h
  · exact absurd h (by simp)
  · simp only [Option.some.injEq] at h
    exact h.symm

theorem retry_send_until_ok_eq (hw : Hw) (arg cmd rsp wfuel : Nat) :
    ∀ rfuel (s s' : St), retry_send_until_ok hw arg cmd rsp wfuel rfuel s = some s' →
      ∃ k, 0 < k ∧
        s' = { s with cmdCount := s.cmdCount + k,
                      trace := s.trace ++ List.replicate k (Ev.cmdIssued arg cmd rsp) } := by
  intro rfuel
  induction rfuel with
  | zero => intro s s' h; simp [retry_send_until_ok] at h
  | succ n ih =>
    intro s s' h
    rw [retry_send_until_ok] at h
    split at h
    · exact absurd h (by simp)
    · rename_i r s1 heq
      have hs1 := sdcard_send_command_eq hw arg cmd rsp s wfuel r s1 heq
      split at h
      · refine ⟨1, by omega, ?_⟩
        simp only [Option.some.injEq] at h
        rw [← h, hs1]
        simp
      · obtain ⟨k, hk, hs'⟩ := ih s1 s' h
        refine ⟨k + 1, by omega, ?_⟩
        rw [hs', hs1]
        simp only [St.mk.injEq, and_true, true_and]
        refine ⟨by omega, ?_⟩
        rw [List.append_assoc]
        congr 1

theorem sdcard_read_multiple_block_eq (hw : Hw) (addr cnt : Nat) (s : St)
    (wfuel rfuel : Nat) (r : SDResult) (s' : St)
    (h : sdcard_read_multiple_block hw addr cnt s wfuel rfuel = some (r, s')) :
    ∃ k, 0 < k ∧
      s' = { s with cmdCount := s.cmdCount + k, dataCount := s.dataCount + 1,
                    trace := s.trace ++ [Ev.blockLenW 512, Ev.blockCountW cnt]
                      ++ List.replicate k (Ev.cmdIssued addr 18 dataReadShortRsp)
                      ++ [Ev.dataDoneWait r] } := by
  unfold sdcard_read_multiple_block at h
  simp only [St.emit] at h
  split at h
  · exact absurd h (by simp)
  · rename_i s1 heq
    obtain ⟨k, hk, hs1⟩ := retry_send_until_ok_eq hw addr 18 dataReadShortRsp wfuel rfuel _ s1 heq
    have hs' := wait_data_done_st_eq hw s1 wfuel r s' h
    refine ⟨k, hk, ?_⟩
    rw [hs', hs1]
    simp [St.emit, St.mk.injEq, List.append_assoc]

theorem sdcard_read_single_block_eq (hw : Hw) (addr : Nat) (s : St)
    (wfuel rfuel : Nat) (r : SDResult) (s' : St)
    (h : sdcard_read_single_block hw addr s wfuel rfuel = some (r, s')) :
    ∃ k, 0 < k ∧
      s' = { s with cmdCount := s.cmdCount + k, dataCount := s.dataCount + 1,
                    trace := s.trace ++ [Ev.blockLenW 512, Ev.blockCountW 1]
                      ++ List.replicate k (Ev.cmdIssued addr 17 dataReadShortRsp)
                      ++ [Ev.dataDoneWait r] } := by
  unfold sdcard_read_single_block at h
  simp only [St.emit] at h
  split at h
  · exact absurd h (by simp)
  · rename_i s1 heq
    obtain ⟨k, hk, hs1⟩ := retry_send_until_ok_eq hw addr 17 dataReadShortRsp wfuel rfuel _ s1 heq
    have hs' := wait_data_done_st_eq hw s1 wfuel r s' h
    refine ⟨k, hk, ?_⟩
    rw [hs', hs1]
    simp [St.emit, St.mk.injEq, List.append_assoc]

theorem sdcard_write_multiple_block_eq (hw : Hw) (addr cnt : Nat) (s : St)
    (wfuel rfuel : Nat) (r : SDResult) (s' : St)
    (h : sdcard_write_multiple_block hw addr cnt s wfuel rfuel = some (r, s')) :
    r = SDResult.ok ∧
    ∃ k, 0 < k ∧
      s' = { s with cmdCount := s.cmdCount + k,
                    trace := s.trace ++ [Ev.blockLenW 512, Ev.blockCountW cnt]
                      ++ List.replicate k (Ev.cmdIssued addr 25 dataWriteShortRsp) } := by
  unfold sdcard_write_multiple_block at h
  simp only [St.emit] at h
  split at h
  · exact absurd h (by simp)
  · rename_i s1 heq
    obtain ⟨k, hk, hs1⟩ := retry_send_until_ok_eq hw addr 25 dataWriteShortRsp wfuel rfuel _ s1 heq
    simp only [Option.some.injEq, Prod.mk.injEq] at h
    obtain ⟨h1, h2⟩ := h
    refine ⟨h1.symm, k, hk, ?_⟩
    rw [← h2, hs1]
    simp [St.emit, St.mk.injEq, List.append_assoc]

theorem sdcard_write_single_block_eq (hw : Hw) (addr : Nat) (s : St)
    (wfuel rfuel : Nat) (r : SDResult) (s' : St)
    (h : sdcard_write_single_block hw addr s wfuel rfuel = some (r, s')) :
    r = SDResult.ok ∧
    ∃ k, 0 < k ∧
      s' = { s with cmdCount := s.cmdCount + k,
                    trace := s.trace ++ [Ev.blockLenW 512, Ev.blockCountW 1]
                      ++ List.replicate k (Ev.cmdIssued addr 24 dataWriteShortRsp) } := by
  unfold sdcard_write_single_block at h
  simp only [St.emit] at h
  split at h
  · exact absurd h (by simp)
  · rename_i s1 heq
    obtain ⟨k, hk, hs1⟩ := retry_send_until_ok_eq hw addr 24 dataWriteShortRsp wfuel rfuel _ s1 heq
    simp only [Option.some.injEq, Prod.mk.injEq] at h
    obtain ⟨h1, h2⟩ := h
    refine ⟨h1.symm, k, hk, ?_⟩
    rw [← h2, hs1]
    simp [St.emit, St.mk.injEq, List.append_assoc]

theorem sdcard_switch_eq (hw : Hw) (mode group value : Nat) (s : St)
    (wfuel rfuel : Nat) (r : SDResult) (s' : St)
    (h : sdcard_switch hw mode group value s wfuel rfuel = some (r, s')) :
    ∃ k, 0 < k ∧
      s' = { s with cmdCount := s.cmdCount + k, dataCount := s.dataCount + 1,
                    trace := s.trace ++ [Ev.blockLenW 64, Ev.blockCountW 1]
                      ++ List.replicate k (Ev.cmdIssued (switchArg mode group value) 6 dataReadShortRsp)
                      ++ [Ev.dataDoneWait r] } := by
  unfold sdcard_switch at h
  simp only [St.emit] at h
  split at h
  · exact absurd h (by simp)
  · rename_i s1 heq
    obtain ⟨k, hk, hs1⟩ := retry_send_until_ok_eq hw _ 6 dataReadShortRsp wfuel rfuel _ s1 heq
    have hs' := wait_data_done_st_eq hw s1 wfuel r s' h
    refine ⟨k, hk, ?_⟩
    rw [hs', hs1]
    simp [St.emit, St.mk.injEq, List.append_assoc]

theorem sdcard_app_send_scr_eq (hw : Hw) (s : St)
    (wfuel rfuel : Nat) (r : SDResult) (s' : St)
    (h : sdcard_app_send_scr hw s wfuel rfuel = some (r, s')) :
    ∃ k, 0 < k ∧
      s' = { s with cmdCount := s.cmdCount + k, dataCount := s.dataCount + 1,
                    trace := s.trace ++ [Ev.blockLenW 8, Ev.blockCountW 1]
                      ++ List.replicate k (Ev.cmdIssued 0 51 dataReadShortRsp)
                      ++ [Ev.dataDoneWait r] } := by
  unfold sdcard_app_send_scr at h
  simp only [St.emit] at h
  split at h
  · exact absurd h (by simp)
  · rename_i s1 heq
    obtain ⟨k, hk, hs1⟩ := retry_send_until_ok_eq hw 0 51 dataReadShortRsp wfuel rfuel _ s1 heq
    have hs' := wait_data_done_st_eq hw s1 wfuel r s' h
    refine ⟨k, hk, ?_⟩
    rw [hs', hs1]
    simp [St.emit, St.mk.injEq, List.append_assoc]

/-! Claim C6. -/

/-- Claim C6: every completed call of the command/data wait primitives (and
hence of sendCommand) returns exactly one of Ok, Timeout, CrcError — the
result type has exactly those three values — and the value is determined by
the event flags once the completion flag (bit 0) is set: timeout flag
(bit 2) yields Timeout, CRC flag (bit 3) yields CrcError, otherwise Ok. -/
theorem C6_event_result_mapping :
    ∀ stream fuel event, poll_until_done stream fuel = some event →
      event &&& 0x1 ≠ 0 ∧
      sdcard_wait_cmd_done stream fuel = some (specEventResult event) ∧
      sdcard_wait_data_done stream fuel = some (specEventResult event) ∧
      ∀ hw arg cmd rsp s, hw.cmdEvents s.cmdCount = stream →
        (sdcard_send_command hw arg cmd rsp s fuel).map Prod.fst
          = some (specEventResult event) := by
  intro stream fuel event h
  have hspec : (if event &&& 0x4 ≠ 0 then some SDResult.timeout
      else if event &&& 0x8 ≠ 0 then some SDResult.crcError
      else some SDResult.ok) = some (specEventResult event) := by
    unfold specEventResult
    by_cases h4 : event &&& 0x4 ≠ 0
    · simp [h4]
    · by_cases h8 : event &&& 0x8 ≠ 0 <;> simp [h4, h8]
  have hcmd : sdcard_wait_cmd_done stream fuel = some (specEventResult event) := by
    unfold sdcard_wait_cmd_done
    rw [h]
    exact hspec
  refine ⟨poll_until_done_bit0 stream fuel event h, hcmd, ?_, ?_⟩
  · unfold sdcard_wait_data_done
    rw [h]
    exact hspec
  · intro hw arg cmd rsp s hs
    unfold sdcard_send_command
    rw [hs, hcmd]
    rfl

/-- Witness for C6 at the constant event stream 9 (done + CRC error). -/
theorem C6_witness :
    ((9 : Nat) &&& 0x1 ≠ 0) ∧
    sdcard_wait_cmd_done const9Stream 1 = some (specEventResult 9) ∧
    sdcard_wait_data_done const9Stream 1 = some (specEventResult 9) ∧
    (sdcard_send_command crcEventHw 0 0 0 St.start 1).map Prod.fst
      = some (specEventResult 9) := by
  obtain ⟨h1, h2, h3, h4⟩ := C6_event_result_mapping const9Stream 1 9 (by decide)
  exact ⟨h1, h2, h3, h4 crcEventHw 0 0 0 St.start rfl⟩

/-! Claim C7. -/

/-- Claim C7: for positive target frequencies (as 32-bit values, with the
system clock positive and at most 2^31) the divider equals
clamp(ceil(systemClockHz/targetHz), 2, 256) and lies in [2, 256]; for a
target of 0 the divider is 256; and the effective frequency reported when
`show` is set is systemClockHz / ((divider + 1) & ~1). -/
theorem C7_clock_divider :
    ∀ sysClk targetHz : Nat, 0 < sysClk → sysClk ≤ 2 ^ 31 →
      0 < targetHz → targetHz < 2 ^ 32 →
      sdcard_set_clk_freq_divider sysClk targetHz
          = min (max ((sysClk + targetHz - 1) / targetHz) 2) 256 ∧
      2 ≤ sdcard_set_clk_freq_divider sysClk targetHz ∧
      sdcard_set_clk_freq_divider sysClk targetHz ≤ 256 ∧
      sdcard_set_clk_freq_divider sysClk 0 = 256 ∧
      sdcard_set_clk_freq_effective sysClk targetHz
          = sysClk / ((sdcard_set_clk_freq_divider sysClk targetHz + 1) &&& 0xfffffffe) := by
  intro sysClk targetHz hsys hsys31 ht ht32
  have ht0 : targetHz ≠ 0 := by omega
  have hdiv : sdcard_set_clk_freq_divider sysClk targetHz
      = min (max (((sysClk + targetHz - 1) % 2 ^ 32) / targetHz) 2) 256 := by
    unfold sdcard_set_clk_freq_divider
    simp [ht0]
  have hmain : sdcard_set_clk_freq_divider sysClk targetHz
      = min (max ((sysClk + targetHz - 1) / targetHz) 2) 256 := by
    rw [hdiv]
    by_cases hov : sysClk + targetHz - 1 < 2 ^ 32
    · rw [Nat.mod_eq_of_lt hov]
    · have hmod : (sysClk + targetHz - 1) % 2 ^ 32 = sysClk + targetHz - 1 - 2 ^ 32 := by
        omega
      have hlhs : (sysClk + targetHz - 1 - 2 ^ 32) / targetHz = 0 :=
        Nat.div_eq_of_lt (by omega)
      have hrhs : (sysClk + targetHz - 1) / targetHz = 1 :=
        Nat.div_eq_of_lt_le (by omega) (by omega)
      rw [hmod, hlhs, hrhs]
      decide
  refine ⟨hmain, ?_, ?_, ?_, rfl⟩
  · rw [hdiv]
    generalize ((sysClk + targetHz - 1) % 2 ^ 32) / targetHz = X
    omega
  · rw [hdiv]
    generalize ((sysClk + targetHz - 1) % 2 ^ 32) / targetHz = X
    omega
  · unfold sdcard_set_clk_freq_divider
    simp

/-- Witness for C7 at a 100 MHz system clock and a 400 kHz target. -/
theorem C7_witness :
    sdcard_set_clk_freq_divider 100000000 400000
        = min (max ((100000000 + 400000 - 1) / 400000) 2) 256 ∧
    2 ≤ sdcard_set_clk_freq_divider 100000000 400000 ∧
    sdcard_set_clk_freq_divider 100000000 400000 ≤ 256 ∧
    sdcard_set_clk_freq_divider 100000000 0 = 256 ∧
    sdcard_set_clk_freq_effective 100000000 400000
        = 100000000 / ((sdcard_set_clk_freq_divider 100000000 400000 + 1) &&& 0xfffffffe) :=
  C7_clock_divider 100000000 400000 (by decide) (by decide) (by decide) (by decide)

theorem read_loop_zero (hw : Hw) (cfg : Cfg) (wfuel rfuel dfuel : Nat) :
    ∀ iter block buf s,
      sdcard_read_loop hw cfg wfuel rfuel dfuel iter block 0 buf s = some s := by
  intro iter block buf s
  cases iter <;> simp [sdcard_read_loop]

theorem write_loop_zero (hw : Hw) (cfg : Cfg) (wfuel rfuel dfuel : Nat) :
    ∀ iter block buf s,
      sdcard_write_loop hw cfg wfuel rfuel dfuel iter block 0 buf s = some s := by
  intro iter block buf s
  cases iter <;> simp [sdcard_write_loop]

theorem beforeFirst_replicate_skip (p q : Ev → Bool) (a : Ev) (hp : p a = false)
    (hq : q a = false) :
    ∀ k (l : List Ev), beforeFirst p q (List.replicate k a ++ l) = beforeFirst p q l := by
  intro k
  induction k with
  | zero => intro l; rfl
  | succ n ih =>
    intro l
    rw [List.replicate_succ, List.cons_append, beforeFirst]
    simp [hp, hq, ih l]

theorem beforeFirst_append_skip (p q : Ev → Bool) :
    ∀ (l₁ l₂ : List Ev), (∀ e ∈ l₁, p e = false ∧ q e = false) →
      beforeFirst p q (l₁ ++ l₂) = beforeFirst p q l₂ := by
  intro l₁
  induction l₁ with
  | nil => intro l₂ _; rfl
  | cons a t ih =>
    intro l₂ hmem
    have ha := hmem a (by simp)
    rw [List.cons_append, beforeFirst, if_neg (by simp [ha.2]), if_neg (by simp [ha.1])]
    exact ih l₂ (fun e he => hmem e (by simp [he]))

/-! Claim C9. -/

/-- Claim C9: for every non-zero drive number both Disk Adapter entry
points return STA_NOINIT immediately; initialization leaves the stored
status and the hardware state untouched (no bring-up step runs, no SD
command is issued), and the status query has no side effects by
construction. -/
theorem C9_nonzero_drive :
    ∀ (sysClk : Nat) (hw : Hw) (wfuel rfuel sdcardstatus drv : Nat) (s : St),
      drv ≠ 0 →
      sd_disk_status sdcardstatus drv = STA_NOINIT ∧
      sd_disk_initialize sysClk hw wfuel rfuel sdcardstatus drv s
        = some (STA_NOINIT, sdcardstatus, s) := by
  intro sysClk hw wfuel rfuel st drv s hdrv
  constructor
  · unfold sd_disk_status
    rw [if_pos hdrv]
  · unfold sd_disk_initialize
    rw [if_pos hdrv]

/-- Witness for C9 at drive number 1. -/
theorem C9_witness :
    sd_disk_status sdcardstatus_start 1 = STA_NOINIT ∧
    sd_disk_initialize sysClkEx okRespHw 1 1 sdcardstatus_start 1 St.start
      = some (STA_NOINIT, sdcardstatus_start, St.start) :=
  C9_nonzero_drive sysClkEx okRespHw 1 1 sdcardstatus_start 1 St.start (by decide)

/-! Claim C8. -/

/-- Claim C8: the stored disk status starts as STA_NOINIT (NotInitialized,
non-zero); when it is already Ready (0), initialization returns Ready at
once with the hardware state untouched (no bring-up is re-run); when it is
not Ready, the bring-up runs and the stored and returned status become
Ready exactly when the bring-up succeeds, reverting to STA_NOINIT when it
fails. -/
theorem C8_status_lifecycle :
    sdcardstatus_start = STA_NOINIT ∧ STA_NOINIT ≠ 0 ∧
    (∀ (sysClk : Nat) (hw : Hw) (wfuel rfuel : Nat) (s : St),
      sd_disk_initialize sysClk hw wfuel rfuel 0 0 s = some (0, 0, s)) ∧
    (∀ (sysClk : Nat) (hw : Hw) (wfuel rfuel st : Nat) (s : St) (res : Nat) (s' : St),
      st ≠ 0 →
      sdcard_init sysClk hw wfuel rfuel s = some (res, s') →
      sd_disk_initialize sysClk hw wfuel rfuel st 0 s
        = some (if res ≠ 0 then 0 else STA_NOINIT,
                if res ≠ 0 then 0 else STA_NOINIT, s')) := by
  refine ⟨rfl, by decide, ?_, ?_⟩
  · intro sysClk hw wfuel rfuel s
    unfold sd_disk_initialize
    simp
  · intro sysClk hw wfuel rfuel st s res s' hst hinit
    unfold sd_disk_initialize
    rw [if_neg (by simp), if_pos hst, hinit]

/-- Witness for C8: with the always-ok hardware the bring-up succeeds, so a
first drive-0 initialization from the starting status yields Ready (0), and
a second initialization from Ready is an immediate no-op. -/
theorem C8_witness :
    sd_disk_initialize sysClkEx okRespHw 1 1 0 0 St.start = some (0, 0, St.start) ∧
    sd_disk_initialize sysClkEx okRespHw 1 1 sdcardstatus_start 0 St.start
      = some (if (initRunOk.getD (0, St.start)).1 ≠ 0 then 0 else STA_NOINIT,
              if (initRunOk.getD (0, St.start)).1 ≠ 0 then 0 else STA_NOINIT,
              (initRunOk.getD (0, St.start)).2) :=
  ⟨C8_status_lifecycle.2.2.1 sysClkEx okRespHw 1 1 St.start,
   C8_status_lifecycle.2.2.2 sysClkEx okRespHw 1 1 sdcardstatus_start St.start
     (initRunOk.getD (0, St.start)).1 (initRunOk.getD (0, St.start)).2
     (by decide) (by rfl)⟩

/-! Claim C1. -/

/-- Claim C1 counterexample: in a 2-block read with multi-block read
enabled (the shipped configuration) against hardware on which every poll
succeeds, STOP_TRANSMISSION is not issued before the block-to-memory DMA
done poll: the done flag is polled strictly first and STOP_TRANSMISSION
follows it. -/
theorem C1_counterexample :
    readRunC1.map (fun s => (beforeFirst (isCmdNum 12) isB2mPollEv s.trace,
        beforeFirst isB2mPollEv (isCmdNum 12) s.trace))
      = some (false, true) := by decide

/-- Claim C1 amended: in the Transfer Engine read path, for every chunk
with nblocks > 1 (multi-block read enabled and more than one block
requested, which makes the whole request one chunk), the block-to-memory
DMA engine's done flag is polled until set strictly before
STOP_TRANSMISSION is issued — the inverse of the claimed order. -/
theorem C1_read_poll_precedes_stop :
    ∀ (hw : Hw) (cfg : Cfg) (wfuel rfuel dfuel block count buf : Nat) (s' : St),
      cfg.cmd18Support = true → 2 ≤ count →
      sdcard_read hw cfg wfuel rfuel dfuel block count buf St.start = some s' →
      beforeFirst isB2mPollEv (isCmdNum 12) s'.trace = true := by
  intro hw cfg wfuel rfuel dfuel block count buf s' h18 hcnt h
  obtain ⟨c, hc, rfl⟩ : ∃ c, 1 ≤ c ∧ count = c + 1 :=
    ⟨count - 1, by omega, by omega⟩
  unfold sdcard_read at h
  rw [sdcard_read_loop] at h
  rw [if_neg (Nat.succ_ne_zero c)] at h
  simp only [chunkBlocks, h18, if_true, St.emit, St.start] at h
  have hgt : c + 1 > 1 := by omega
  simp only [hgt, if_true, Nat.sub_self, read_loop_zero] at h
  cases hc23 : cfg.cmd23Support with
  | false =>
    simp only [hc23, Bool.false_eq_true, if_false] at h
    split at h
    · exact absurd h (by simp)
    · rename_i fst s3 hrd
      split at h
      · exact absurd h (by simp)
      · rename_i s4 hb2m
        split at h
        · exact absurd h (by simp)
        · rename_i s5 hsm
          injection h with h'
          subst h'
          obtain ⟨k, hk, hs3⟩ :=
            sdcard_read_multiple_block_eq hw block (c + 1) _ wfuel rfuel fst s3 hrd
          have hs4 := wait_b2m_dma_done_eq hw s3 dfuel s4 hb2m
          rw [Option.map_eq_some'] at hsm
          obtain ⟨a, hstop, hsnd⟩ := hsm
          have hs5 := sdcard_stop_transmission_eq hw s4 wfuel a.1 a.2 hstop
          have htr3 := congrArg St.trace hs3
          have htr4 : s4.trace = s3.trace ++ [Ev.b2mDonePoll] := by rw [hs4]
          have htr5 : s5.trace
              = s4.trace ++ [Ev.cmdIssued 0 12 SDCARD_CTRL_RESPONSE_SHORT_BUSY] := by
            rw [← hsnd, hs5]
          have hX : ∀ e ∈ s3.trace, isB2mPollEv e = false ∧ isCmdNum 12 e = false := by
            intro e he
            rw [htr3] at he
            simp only [List.mem_append, List.mem_cons, List.not_mem_nil, List.mem_replicate,
              List.nil_append, or_false, false_or, or_assoc] at he
            rcases he with hm | hm | hm | hm | hm | hm | ⟨-, hm⟩ | hm <;>
              (subst hm; exact ⟨rfl, rfl⟩)
          rw [htr5, htr4, List.append_assoc]
          rw [beforeFirst_append_skip _ _ _ _ hX]
          decide
  | true =>
    simp only [hc23, if_true] at h
    split at h
    · exact absurd h (by simp)
    · rename_i s2 hmap
      rw [Option.map_eq_some'] at hmap
      obtain ⟨b, hbc, hbsnd⟩ := hmap
      have hs2 := sdcard_set_block_count_eq hw (c + 1) _ wfuel b.1 b.2 hbc
      have hskip : ∀ e ∈ s2.trace, isB2mPollEv e = false ∧ isCmdNum 12 e = false := by
        intro e he
        rw [← hbsnd, hs2] at he
        simp only [List.mem_append, List.mem_cons, List.not_mem_nil,
          List.nil_append, or_false, false_or, or_assoc] at he
        rcases he with hm | hm | hm | hm | hm <;> (subst hm; exact ⟨rfl, rfl⟩)
      split at h
      · exact absurd h (by simp)
      · rename_i fst s3 hrd
        split at h
        · exact absurd h (by simp)
        · rename_i s4 hb2m
          split at h
          · exact absurd h (by simp)
          · rename_i s5 hsm
            injection h with h'
            subst h'
            obtain ⟨k, hk, hs3⟩ :=
              sdcard_read_multiple_block_eq hw block (c + 1) _ wfuel rfuel fst s3 hrd
            have hs4 := wait_b2m_dma_done_eq hw s3 dfuel s4 hb2m
            rw [Option.map_eq_some'] at hsm
            obtain ⟨a, hstop, hsnd⟩ := hsm
            have hs5 := sdcard_stop_transmission_eq hw s4 wfuel a.1 a.2 hstop
            have htr3 := congrArg St.trace hs3
            have htr4 : s4.trace = s3.trace ++ [Ev.b2mDonePoll] := by rw [hs4]
            have htr5 : s5.trace
                = s4.trace ++ [Ev.cmdIssued 0 12 SDCARD_CTRL_RESPONSE_SHORT_BUSY] := by
              rw [← hsnd, hs5]
            have hX : ∀ e ∈ s3.trace, isB2mPollEv e = false ∧ isCmdNum 12 e = false := by
              intro e he
              rw [htr3] at he
              simp only [List.mem_append, List.mem_cons, List.not_mem_nil, List.mem_replicate,
                List.nil_append, or_false, false_or, or_assoc] at he
              rcases he with hm | hm | hm | ⟨-, hm⟩ | hm
              · exact hskip e hm
              · subst hm; exact ⟨rfl, rfl⟩
              · subst hm; exact ⟨rfl, rfl⟩
              · subst hm; exact ⟨rfl, rfl⟩
              · subst hm; exact ⟨rfl, rfl⟩
            rw [htr5, htr4, List.append_assoc]
            rw [beforeFirst_append_skip _ _ _ _ hX]
            decide

theorem sdcard_read_loop_succ (hw : Hw) (cfg : Cfg)
    (wfuel rfuel dfuel iter block count buf : Nat) (s s' : St) (hc : count ≠ 0)
    (h : sdcard_read_loop hw cfg wfuel rfuel dfuel (iter + 1) block count buf s = some s') :
    ∃ (k : Nat) (r : SDResult) (s5 : St), 0 < k ∧
      s5.trace = s.trace
        ++ ([Ev.b2mEnable 0, Ev.b2mBase buf,
             Ev.b2mLen (512 * chunkBlocks cfg.cmd18Support count), Ev.b2mEnable 1]
          ++ (if cfg.cmd23Support = true then
                [Ev.cmdIssued (chunkBlocks cfg.cmd18Support count) 23 SDCARD_CTRL_RESPONSE_SHORT]
              else [])
          ++ [Ev.blockLenW 512, Ev.blockCountW (chunkBlocks cfg.cmd18Support count)]
          ++ List.replicate k (Ev.cmdIssued block
              (if 1 < chunkBlocks cfg.cmd18Support count then 18 else 17) dataReadShortRsp)
          ++ [Ev.dataDoneWait r, Ev.b2mDonePoll]
          ++ (if 1 < chunkBlocks cfg.cmd18Support count then
                [Ev.cmdIssued 0 12 SDCARD_CTRL_RESPONSE_SHORT_BUSY] else [])) ∧
      sdcard_read_loop hw cfg wfuel rfuel dfuel iter
        (block + chunkBlocks cfg.cmd18Support count)
        (count - chunkBlocks cfg.cmd18Support count)
        (buf + 512 * chunkBlocks cfg.cmd18Support count) s5 = some s' := by
  have hnb1 : 1 ≤ chunkBlocks cfg.cmd18Support count := by
    unfold chunkBlocks; split <;> omega
  rw [sdcard_read_loop] at h
  rw [if_neg hc] at h
  simp only [St.emit] at h
  by_cases hgt : 1 < chunkBlocks cfg.cmd18Support count
  · cases hc23 : cfg.cmd23Support with
    | false =>
      simp only [hc23, Bool.false_eq_true, if_false, gt_iff_lt, hgt, if_true] at h
      split at h
      · exact absurd h (by simp)
      · rename_i fst s3 hrd
        split at h
        · exact absurd h (by simp)
        · rename_i s4 hb2m
          split at h
          · exact absurd h (by simp)
          · rename_i s5 hsm
            obtain ⟨k, hk, hs3⟩ :=
              sdcard_read_multiple_block_eq hw block _ _ wfuel rfuel fst s3 hrd
            have hs4 := wait_b2m_dma_done_eq hw s3 dfuel s4 hb2m
            rw [Option.map_eq_some'] at hsm
            obtain ⟨a, hstop, hsnd⟩ := hsm
            have hs5 := sdcard_stop_transmission_eq hw s4 wfuel a.1 a.2 hstop
            refine ⟨k, fst, s5, hk, ?_, h⟩
            rw [← hsnd, hs5, hs4, hs3]
            simp [hc23, hgt, List.append_assoc]
    | true =>
      simp only [hc23, if_true, gt_iff_lt, hgt] at h
      split at h
      · exact absurd h (by simp)
      · rename_i s2 hmap
        rw [Option.map_eq_some'] at hmap
        obtain ⟨b, hbc, hbsnd⟩ := hmap
        have hs2 := sdcard_set_block_count_eq hw _ _ wfuel b.1 b.2 hbc
        split at h
        · exact absurd h (by simp)
        · rename_i fst s3 hrd
          split at h
          · exact absurd h (by simp)
          · rename_i s4 hb2m
            split at h
            · exact absurd h (by simp)
            · rename_i s5 hsm
              obtain ⟨k, hk, hs3⟩ :=
                sdcard_read_multiple_block_eq hw block _ _ wfuel rfuel fst s3 hrd
              have hs4 := wait_b2m_dma_done_eq hw s3 dfuel s4 hb2m
              rw [Option.map_eq_some'] at hsm
              obtain ⟨a, hstop, hsnd⟩ := hsm
              have hs5 := sdcard_stop_transmission_eq hw s4 wfuel a.1 a.2 hstop
              refine ⟨k, fst, s5, hk, ?_, h⟩
              rw [← hsnd, hs5, hs4, hs3, ← hbsnd, hs2]
              simp [hc23, hgt, List.append_assoc]
  · have hnbeq : chunkBlocks cfg.cmd18Support count = 1 := by omega
    cases hc23 : cfg.cmd23Support with
    | false =>
      simp only [hc23, Bool.false_eq_true, if_false, gt_iff_lt, hgt] at h
      split at h
      · exact absurd h (by simp)
      · rename_i fst s3 hrd
        split at h
        · exact absurd h (by simp)
        · rename_i s4 hb2m
          obtain ⟨k, hk, hs3⟩ :=
            sdcard_read_single_block_eq hw block _ wfuel rfuel fst s3 hrd
          have hs4 := wait_b2m_dma_done_eq hw s3 dfuel s4 hb2m
          refine ⟨k, fst, s4, hk, ?_, h⟩
          rw [hs4, hs3]
          simp [hc23, hgt, hnbeq, List.append_assoc]
    | true =>
      simp only [hc23, if_true, gt_iff_lt, hgt] at h
      split at h
      · exact absurd h (by simp)
      · rename_i s2 hmap
        rw [Option.map_eq_some'] at hmap
        obtain ⟨b, hbc, hbsnd⟩ := hmap
        have hs2 := sdcard_set_block_count_eq hw _ _ wfuel b.1 b.2 hbc
        split at h
        · exact absurd h (by simp)
        · rename_i fst s3 hrd
          split at h
          · exact absurd h (by simp)
          · rename_i s4 hb2m
            obtain ⟨k, hk, hs3⟩ :=
              sdcard_read_single_block_eq hw block _ wfuel rfuel fst s3 hrd
            have hs4 := wait_b2m_dma_done_eq hw s3 dfuel s4 hb2m
            refine ⟨k, fst, s4, hk, ?_, h⟩
            rw [hs4, hs3, ← hbsnd, hs2]
            simp [hc23, hgt, hnbeq, List.append_assoc]

theorem sdcard_write_loop_succ (hw : Hw) (cfg : Cfg)
    (wfuel rfuel dfuel iter block count buf : Nat) (s s' : St) (hc : count ≠ 0)
    (h : sdcard_write_loop hw cfg wfuel rfuel dfuel (iter + 1) block count buf s = some s') :
    ∃ (k : Nat) (s5 : St), 0 < k ∧
      s5.trace = s.trace
        ++ ([Ev.m2bEnable 0, Ev.m2bBase buf,
             Ev.m2bLen (512 * chunkBlocks cfg.cmd25Support count), Ev.m2bEnable 1]
          ++ (if cfg.cmd23Support = true then
                [Ev.cmdIssued (chunkBlocks cfg.cmd25Support count) 23 SDCARD_CTRL_RESPONSE_SHORT]
              else [])
          ++ [Ev.blockLenW 512, Ev.blockCountW (chunkBlocks cfg.cmd25Support count)]
          ++ List.replicate k (Ev.cmdIssued block
              (if 1 < chunkBlocks cfg.cmd25Support count then 25 else 24) dataWriteShortRsp)
          ++ (if 1 < chunkBlocks cfg.cmd25Support count then
                [Ev.cmdIssued 0 12 SDCARD_CTRL_RESPONSE_SHORT_BUSY] else [])
          ++ [Ev.m2bDonePoll]) ∧
      sdcard_write_loop hw cfg wfuel rfuel dfuel iter
        (block + chunkBlocks cfg.cmd25Support count)
        (count - chunkBlocks cfg.cmd25Support count)
        (buf + 512 * chunkBlocks cfg.cmd25Support count) s5 = some s' := by
  have hnb1 : 1 ≤ chunkBlocks cfg.cmd25Support count := by
    unfold chunkBlocks; split <;> omega
  rw [sdcard_write_loop] at h
  rw [if_neg hc] at h
  simp only [St.emit] at h
  by_cases hgt : 1 < chunkBlocks cfg.cmd25Support count
  · cases hc23 : cfg.cmd23Support with
    | false =>
      simp only [hc23, Bool.false_eq_true, if_false, gt_iff_lt, hgt, if_true] at h
      split at h
      · exact absurd h (by simp)
      · rename_i fst s3 hwr
        split at h
        · exact absurd h (by simp)
        · rename_i s4 hsm
          split at h
          · exact absurd h (by simp)
          · rename_i s5 hm2b
            obtain ⟨hok, k, hk, hs3⟩ :=
              sdcard_write_multiple_block_eq hw block _ _ wfuel rfuel fst s3 hwr
            rw [Option.map_eq_some'] at hsm
            obtain ⟨a, hstop, hsnd⟩ := hsm
            have hs4 := sdcard_stop_transmission_eq hw s3 wfuel a.1 a.2 hstop
            have hs5 := wait_m2b_dma_done_eq hw s4 dfuel s5 hm2b
            refine ⟨k, s5, hk, ?_, h⟩
            rw [hs5, ← hsnd, hs4, hs3]
            simp [hc23, hgt, List.append_assoc]
    | true =>
      simp only [hc23, if_true, gt_iff_lt, hgt] at h
      split at h
      · exact absurd h (by simp)
      · rename_i s2 hmap
        rw [Option.map_eq_some'] at hmap
        obtain ⟨b, hbc, hbsnd⟩ := hmap
        have hs2 := sdcard_set_block_count_eq hw _ _ wfuel b.1 b.2 hbc
        split at h
        · exact absurd h (by simp)
        · rename_i fst s3 hwr
          split at h
          · exact absurd h (by simp)
          · rename_i s4 hsm
            split at h
            · exact absurd h (by simp)
            · rename_i s5 hm2b
              obtain ⟨hok, k, hk, hs3⟩ :=
                sdcard_write_multiple_block_eq hw block _ _ wfuel rfuel fst s3 hwr
              rw [Option.map_eq_some'] at hsm
              obtain ⟨a, hstop, hsnd⟩ := hsm
              have hs4 := sdcard_stop_transmission_eq hw s3 wfuel a.1 a.2 hstop
              have hs5 := wait_m2b_dma_done_eq hw s4 dfuel s5 hm2b
              refine ⟨k, s5, hk, ?_, h⟩
              rw [hs5, ← hsnd, hs4, hs3, ← hbsnd, hs2]
              simp [hc23, hgt, List.append_assoc]
  · have hnbeq : chunkBlocks cfg.cmd25Support count = 1 := by omega
    cases hc23 : cfg.cmd23Support with
    | false =>
      simp only [hc23, Bool.false_eq_true, if_false, gt_iff_lt, hgt] at h
      split at h
      · exact absurd h (by simp)
      · rename_i fst s3 hwr
        split at h
        · exact absurd h (by simp)
        · rename_i s5 hm2b
          obtain ⟨hok, k, hk, hs3⟩ :=
            sdcard_write_single_block_eq hw block _ wfuel rfuel fst s3 hwr
          have hs5 := wait_m2b_dma_done_eq hw s3 dfuel s5 hm2b
          refine ⟨k, s5, hk, ?_, h⟩
          rw [hs5, hs3]
          simp [hc23, hgt, hnbeq, List.append_assoc]
    | true =>
      simp only [hc23, if_true, if_false, gt_iff_lt, hgt] at h
      split at h
      · exact absurd h (by simp)
      · rename_i s2 hmap
        rw [Option.map_eq_some'] at hmap
        obtain ⟨b, hbc, hbsnd⟩ := hmap
        have hs2 := sdcard_set_block_count_eq hw _ _ wfuel b.1 b.2 hbc
        split at h
        · exact absurd h (by simp)
        · rename_i fst s3 hwr
          split at h
          · exact absurd h (by simp)
          · rename_i s5 hm2b
            obtain ⟨hok, k, hk, hs3⟩ :=
              sdcard_write_single_block_eq hw block _ wfuel rfuel fst s3 hwr
            have hs5 := wait_m2b_dma_done_eq hw s3 dfuel s5 hm2b
            refine ⟨k, s5, hk, ?_, h⟩
            rw [hs5, hs3, ← hbsnd, hs2]
            simp [hc23, hgt, hnbeq, List.append_assoc]

/-- Witness for the amended C1 at the concrete 2-block read. -/
theorem C1_witness :
    beforeFirst isB2mPollEv (isCmdNum 12) ((readRunC1.getD St.start).trace) = true :=
  C1_read_poll_precedes_stop okRespHw defaultCfg 1 1 1 0 2 0 (readRunC1.getD St.start)
    rfl (by omega) (by rfl)

/-! Claim C4. -/

/-- Claim C4: with multi-block write enabled, any multi-block write — in
particular write(buffer, 0, 4) — issues STOP_TRANSMISSION strictly before
the call that polls the memory-to-block DMA engine's done flag. -/
theorem C4_write_stop_precedes_poll :
    ∀ (hw : Hw) (cfg : Cfg) (wfuel rfuel dfuel block count buf : Nat) (s' : St),
      cfg.cmd25Support = true → 2 ≤ count →
      sdcard_write hw cfg wfuel rfuel dfuel block count buf St.start = some s' →
      beforeFirst (isCmdNum 12) isM2bPollEv s'.trace = true := by
  intro hw cfg wfuel rfuel dfuel block count buf s' h25 hcnt h
  obtain ⟨c, hc, rfl⟩ : ∃ c, 1 ≤ c ∧ count = c + 1 :=
    ⟨count - 1, by omega, by omega⟩
  unfold sdcard_write at h
  obtain ⟨k, s5, hk, htr, hrest⟩ :=
    sdcard_write_loop_succ hw cfg wfuel rfuel dfuel c block (c + 1) buf St.start s'
      (by omega) h
  have hch : chunkBlocks cfg.cmd25Support (c + 1) = c + 1 := by
    simp [chunkBlocks, h25]
  rw [hch] at htr hrest
  rw [Nat.sub_self, write_loop_zero] at hrest
  injection hrest with hs5eq
  subst hs5eq
  rw [htr]
  have hgt : 1 < c + 1 := by omega
  cases hc23 : cfg.cmd23Support with
  | false =>
    simp only [hc23, Bool.false_eq_true, if_false, hgt, if_true, St.start,
      List.nil_append, List.append_nil]
    rw [List.append_assoc]
    have hX : ∀ e ∈ ([Ev.m2bEnable 0, Ev.m2bBase buf, Ev.m2bLen (512 * (c + 1)),
        Ev.m2bEnable 1] ++ [Ev.blockLenW 512, Ev.blockCountW (c + 1)]
        ++ List.replicate k (Ev.cmdIssued block 25 dataWriteShortRsp)),
        isCmdNum 12 e = false ∧ isM2bPollEv e = false := by
      intro e he
      simp only [List.mem_append, List.mem_cons, List.not_mem_nil, List.mem_replicate,
        or_false, false_or, or_assoc] at he
      rcases he with hm | hm | hm | hm | hm | hm | ⟨-, hm⟩ <;>
        (subst hm; exact ⟨rfl, rfl⟩)
    rw [beforeFirst_append_skip _ _ _ _ hX]
    decide
  | true =>
    simp only [hc23, if_true, hgt, St.start, List.nil_append]
    rw [List.append_assoc]
    have hX : ∀ e ∈ ([Ev.m2bEnable 0, Ev.m2bBase buf, Ev.m2bLen (512 * (c + 1)),
        Ev.m2bEnable 1] ++ [Ev.cmdIssued (c + 1) 23 SDCARD_CTRL_RESPONSE_SHORT]
        ++ [Ev.blockLenW 512, Ev.blockCountW (c + 1)]
        ++ List.replicate k (Ev.cmdIssued block 25 dataWriteShortRsp)),
        isCmdNum 12 e = false ∧ isM2bPollEv e = false := by
      intro e he
      simp only [List.mem_append, List.mem_cons, List.not_mem_nil, List.mem_replicate,
        or_false, false_or, or_assoc] at he
      rcases he with hm | hm | hm | hm | hm | hm | hm | ⟨-, hm⟩ <;>
        (subst hm; exact ⟨rfl, rfl⟩)
    rw [beforeFirst_append_skip _ _ _ _ hX]
    decide

/-- Witness for C4 at the concrete write(buffer, 0, 4). -/
theorem C4_witness :
    beforeFirst (isCmdNum 12) isM2bPollEv ((writeRunC4.getD St.start).trace) = true :=
  C4_write_stop_precedes_poll okRespHw defaultCfg 1 1 1 0 4 0 (writeRunC4.getD St.start)
    rfl (by omega) (by rfl)

theorem all_replicate_of (p : Ev → Bool) (a : Ev) (hp : p a = true) :
    ∀ k, (List.replicate k a).all p = true := by
  intro k
  induction k with
  | zero => rfl
  | succ n ih => rw [List.replicate_succ]; simp [hp, ih]

theorem sdcard_write_loop_no_data_wait (hw : Hw) (cfg : Cfg) (wfuel rfuel dfuel : Nat) :
    ∀ iter block count buf (s s' : St),
      sdcard_write_loop hw cfg wfuel rfuel dfuel iter block count buf s = some s' →
      ∃ l, s'.trace = s.trace ++ l ∧ l.all (fun e => ! isDataWaitEv e) = true := by
  intro iter
  induction iter with
  | zero =>
    intro block count buf s s' h
    rw [sdcard_write_loop] at h
    split at h
    · simp only [Option.some.injEq] at h
      exact ⟨[], by rw [← h, List.append_nil], rfl⟩
    · exact absurd h (by simp)
  | succ n ih =>
    intro block count buf s s' h
    by_cases hc : count = 0
    · rw [sdcard_write_loop, if_pos hc] at h
      simp only [Option.some.injEq] at h
      exact ⟨[], by rw [← h, List.append_nil], rfl⟩
    · obtain ⟨k, s5, hk, htr, hrest⟩ :=
        sdcard_write_loop_succ hw cfg wfuel rfuel dfuel n block count buf s s' hc h
      obtain ⟨l2, hl2, hall2⟩ := ih _ _ _ s5 s' hrest
      have hseg : ∃ seg, s5.trace = s.trace ++ seg ∧
          seg.all (fun e => ! isDataWaitEv e) = true := by
        refine ⟨_, htr, ?_⟩
        rw [List.all_append, List.all_append, List.all_append, List.all_append,
          List.all_append]
        rw [all_replicate_of _ _ rfl]
        cases hc23 : cfg.cmd23Support <;>
          by_cases hgt : 1 < chunkBlocks cfg.cmd25Support count <;>
            simp [hc23, hgt, isDataWaitEv]
      obtain ⟨seg, hseg1, hseg2⟩ := hseg
      exact ⟨seg ++ l2, by rw [hl2, hseg1, List.append_assoc],
        by rw [List.all_append, hseg2, hall2]; rfl⟩

/-! Claim C3. -/

/-- Claim C3 counterexample: in a 2-block write with multi-block write
enabled against hardware on which every poll succeeds, the multi-block
write command and STOP_TRANSMISSION are issued but no data-phase wait
occurs anywhere in the write path, so the claimed waitDataDone step (the
mirror of read step 6) does not exist. -/
theorem C3_counterexample :
    writeRunC3.map (fun s => (s.trace.any (isCmdNum 25), s.trace.any (isCmdNum 12),
        s.trace.any isDataWaitEv))
      = some (true, true, false) := by decide

/-- Claim C3 amended: the write path mirrors the read algorithm's steps 1-5
per chunk but performs no data-phase wait at all: the write block helpers
return Ok directly after the command phase (without calling waitDataDone),
and the whole write path emits no data-wait event before STOP_TRANSMISSION
and the DMA done poll. -/
theorem C3_write_no_data_wait :
    (∀ (hw : Hw) (cfg : Cfg) (wfuel rfuel dfuel block count buf : Nat) (s' : St),
      sdcard_write hw cfg wfuel rfuel dfuel block count buf St.start = some s' →
      s'.trace.all (fun e => ! isDataWaitEv e) = true) ∧
    (∀ (hw : Hw) (addr cnt : Nat) (s : St) (wfuel rfuel : Nat) (r : SDResult) (s' : St),
      sdcard_write_multiple_block hw addr cnt s wfuel rfuel = some (r, s') →
      r = SDResult.ok) ∧
    (∀ (hw : Hw) (addr : Nat) (s : St) (wfuel rfuel : Nat) (r : SDResult) (s' : St),
      sdcard_write_single_block hw addr s wfuel rfuel = some (r, s') →
      r = SDResult.ok) := by
  refine ⟨?_, ?_, ?_⟩
  · intro hw cfg wfuel rfuel dfuel block count buf s' h
    unfold sdcard_write at h
    obtain ⟨l, hl, hall⟩ :=
      sdcard_write_loop_no_data_wait hw cfg wfuel rfuel dfuel count block count buf
        St.start s' h
    rw [hl]
    simpa [St.start] using hall
  · intro hw addr cnt s wfuel rfuel r s' h
    exact (sdcard_write_multiple_block_eq hw addr cnt s wfuel rfuel r s' h).1
  · intro hw addr s wfuel rfuel r s' h
    exact (sdcard_write_single_block_eq hw addr s wfuel rfuel r s' h).1

/-- Witness for the amended C3 at the concrete 2-block write and a concrete
multi-block write command. -/
theorem C3_witness :
    (writeRunC3.getD St.start).trace.all (fun e => ! isDataWaitEv e) = true ∧
    ((sdcard_write_multiple_block okRespHw 0 2 St.start 1 1).getD
        (SDResult.ok, St.start)).1 = SDResult.ok :=
  ⟨C3_write_no_data_wait.1 okRespHw defaultCfg 1 1 1 0 2 0 (writeRunC3.getD St.start)
      (by rfl),
   C3_write_no_data_wait.2.1 okRespHw 0 2 St.start 1 1
      ((sdcard_write_multiple_block okRespHw 0 2 St.start 1 1).getD
        (SDResult.ok, St.start)).1
      ((sdcard_write_multiple_block okRespHw 0 2 St.start 1 1).getD
        (SDResult.ok, St.start)).2
      (by rfl)⟩

theorem filterMap_replicate_none {β : Type} (f : Ev → Option β) (a : Ev)
    (hf : f a = none) : ∀ k, List.filterMap f (List.replicate k a) = [] := by
  intro k
  induction k with
  | zero => rfl
  | succ n ih => rw [List.replicate_succ, List.filterMap_cons, hf]; exact ih

theorem countP_replicate_zero (p : Ev → Bool) (a : Ev) (hp : p a = false) :
    ∀ k, List.countP p (List.replicate k a) = 0 := by
  intro k
  induction k with
  | zero => rfl
  | succ n ih => rw [List.replicate_succ, List.countP_cons, hp]; simpa using ih

theorem sdcard_read_loop_accounting (hw : Hw) (cfg : Cfg) (wfuel rfuel dfuel : Nat) :
    ∀ iter block count buf (s s' : St),
      sdcard_read_loop hw cfg wfuel rfuel dfuel iter block count buf s = some s' →
      ∃ l, s'.trace = s.trace ++ l ∧
        (b2mLenVals l).sum = 512 * count ∧
        l.countP isB2mPollEv
          = (if cfg.cmd18Support = true then (if count = 0 then 0 else 1) else count) := by
  intro iter
  induction iter with
  | zero =>
    intro block count buf s s' h
    rw [sdcard_read_loop] at h
    split at h
    · rename_i hc
      simp only [Option.some.injEq] at h
      exact ⟨[], by rw [← h, List.append_nil], by simp [b2mLenVals, hc]⟩
    · exact absurd h (by simp)
  | succ n ih =>
    intro block count buf s s' h
    by_cases hc : count = 0
    · rw [sdcard_read_loop, if_pos hc] at h
      simp only [Option.some.injEq] at h
      exact ⟨[], by rw [← h, List.append_nil], by simp [b2mLenVals, hc]⟩
    · obtain ⟨k, r, s5, hk, htr, hrest⟩ :=
        sdcard_read_loop_succ hw cfg wfuel rfuel dfuel n block count buf s s' hc h
      obtain ⟨l2, hl2, hsum2, hcount2⟩ := ih _ _ _ s5 s' hrest
      have hnb1 : 1 ≤ chunkBlocks cfg.cmd18Support count := by
        unfold chunkBlocks; split <;> omega
      have hnble : chunkBlocks cfg.cmd18Support count ≤ count := by
        unfold chunkBlocks; split <;> omega
      have hseg : ∃ seg, s5.trace = s.trace ++ seg ∧
          (b2mLenVals seg).sum = 512 * chunkBlocks cfg.cmd18Support count ∧
          seg.countP isB2mPollEv = 1 := by
        refine ⟨_, htr, ?_, ?_⟩
        · rw [b2mLenVals, List.filterMap_append, List.filterMap_append,
            List.filterMap_append, List.filterMap_append, List.filterMap_append,
            filterMap_replicate_none _ _ rfl]
          cases hc23 : cfg.cmd23Support <;>
            by_cases hgt : 1 < chunkBlocks cfg.cmd18Support count <;>
              simp [hc23, hgt]
        · rw [List.countP_append, List.countP_append, List.countP_append,
            List.countP_append, List.countP_append, countP_replicate_zero _ _ rfl]
          cases hc23 : cfg.cmd23Support <;>
            by_cases hgt : 1 < chunkBlocks cfg.cmd18Support count <;>
              simp [hc23, hgt, isB2mPollEv, List.countP_cons]
      obtain ⟨seg, hseg1, hseg2, hseg3⟩ := hseg
      refine ⟨seg ++ l2, by rw [hl2, hseg1, List.append_assoc], ?_, ?_⟩
      · rw [b2mLenVals, List.filterMap_append, List.sum_append]
        rw [show List.filterMap _ seg = b2mLenVals seg from rfl, hseg2]
        rw [show List.filterMap _ l2 = b2mLenVals l2 from rfl, hsum2]
        omega
      · rw [List.countP_append, hseg3, hcount2]
        by_cases hc18 : cfg.cmd18Support = true
        · rw [hc18]
          simp [chunkBlocks, hc]
        · have hc18f : cfg.cmd18Support = false := by
            cases hcb2 : cfg.cmd18Support
            · rfl
            · exact absurd hcb2 hc18
          rw [hc18f]
          simp only [chunkBlocks, Bool.false_eq_true, if_false]
          omega

/-! Claim C5. -/

/-- Claim C5: for every read request the byte lengths programmed into the
block-to-memory DMA engine across the Transfer Engine loop sum to
512·count (so the nblocks consumed across iterations sum to count), and
the number of loop iterations — one DMA done poll per iteration — is 1
when the multi-block capability is enabled (and count > 0) and count when
it is disabled; concretely, read(buffer, 100, 10) with multi-block read
enabled issues exactly one multi-block read command, at block address 100,
one STOP_TRANSMISSION, and programs the read DMA engine once, with byte
length 5120. -/
theorem C5_block_accounting :
    (∀ (hw : Hw) (cfg : Cfg) (wfuel rfuel dfuel block count buf : Nat) (s' : St),
      sdcard_read hw cfg wfuel rfuel dfuel block count buf St.start = some s' →
      (b2mLenVals s'.trace).sum = 512 * count ∧
      s'.trace.countP isB2mPollEv
        = (if cfg.cmd18Support = true then (if count = 0 then 0 else 1) else count)) ∧
    readRunC5.map (fun s => (argsOfCmd 18 s.trace, argsOfCmd 12 s.trace,
        b2mLenVals s.trace, s.trace.countP isB2mPollEv))
      = some ([100], [0], [5120], 1) := by
  constructor
  · intro hw cfg wfuel rfuel dfuel block count buf s' h
    unfold sdcard_read at h
    obtain ⟨l, hl, hsum, hcount⟩ :=
      sdcard_read_loop_accounting hw cfg wfuel rfuel dfuel count block count buf
        St.start s' h
    rw [hl]
    simp only [St.start, List.nil_append]
    exact ⟨hsum, hcount⟩
  · decide

/-- Witness for C5 at the concrete single-block read(buffer, 0, 1). -/
theorem C5_witness :
    (b2mLenVals (readRunC5single.getD St.start).trace).sum = 512 * 1 ∧
    (readRunC5single.getD St.start).trace.countP isB2mPollEv
      = (if defaultCfg.cmd18Support = true then (if 1 = 0 then 0 else 1) else 1) :=
  C5_block_accounting.1 okRespHw defaultCfg 1 1 1 0 1 0 (readRunC5single.getD St.start)
    (by rfl)

/-! Claim C2. -/

theorem idle_loop_timeout_spin (w : Nat) :
    ∀ t (s : St), sdcard_init_idle_loop timeoutEventHw (w + 1) t s
      = some (0, { s with
                   cmdCount := s.cmdCount + t,
                   trace := s.trace ++ (List.replicate t idleAttempt).flatten }) := by
  intro t
  induction t with
  | zero =>
    intro s
    simp [sdcard_init_idle_loop]
  | succ n ih =>
    intro s
    have hgo : sdcard_go_idle timeoutEventHw (s.emit (Ev.phyInitW 1)) (w + 1)
        = some (SDResult.timeout,
            { s with
              cmdCount := s.cmdCount + 1,
              trace := (s.trace ++ [Ev.phyInitW 1])
                ++ [Ev.cmdIssued 0 0 SDCARD_CTRL_RESPONSE_NONE] }) := by
      unfold sdcard_go_idle sdcard_send_command
      rw [show timeoutEventHw.cmdEvents ((s.emit (Ev.phyInitW 1)).cmdCount)
          = (fun _ => 5) from rfl]
      rfl
    simp only [sdcard_init_idle_loop]
    rw [hgo]
    show sdcard_init_idle_loop timeoutEventHw (w + 1) n
        { s with
          cmdCount := s.cmdCount + 1,
          trace := (s.trace ++ [Ev.phyInitW 1])
            ++ [Ev.cmdIssued 0 0 SDCARD_CTRL_RESPONSE_NONE] } = _
    rw [ih]
    simp only [Option.some.injEq, Prod.mk.injEq, St.mk.injEq, true_and, and_true]
    refine ⟨by omega, ?_⟩
    rw [List.replicate_succ]
    simp [idleAttempt, List.append_assoc]

/-- Claim C2 counterexample: against hardware that never sets the
command-done flag, the drive-0 initialization entry point never returns at
all (for every poll budget the run is still spinning inside the first
GO_IDLE's wait), rather than returning NotInitialized after 1000
attempts — the wait loop has no software bound. -/
theorem C2_counterexample : diskInitDiverges sysClkEx neverDoneHw := by
  intro wfuel rfuel
  have hwait : ∀ k f, sdcard_wait_cmd_done (neverDoneHw.cmdEvents k) f = none := by
    intro k f
    unfold sdcard_wait_cmd_done
    have hz : ∀ i, neverDoneHw.cmdEvents k i &&& 0x1 = 0 := fun i => by
      rw [show neverDoneHw.cmdEvents k = (fun _ => 0) from rfl]
      show (0 : Nat) &&& 0x1 = 0
      decide
    rw [poll_until_done_none (neverDoneHw.cmdEvents k) hz f]
  have hidle : ∀ t (s : St),
      sdcard_init_idle_loop neverDoneHw wfuel (t + 1) s = none := by
    intro t s
    rw [sdcard_init_idle_loop]
    simp [sdcard_go_idle, sdcard_send_command, hwait]
  have hinit : sdcard_init sysClkEx neverDoneHw wfuel rfuel St.start = none := by
    simp only [sdcard_init]
    rw [show (1000 : Nat) = 999 + 1 from rfl, hidle]
  unfold sd_disk_initialize
  rw [if_neg (by simp), if_pos (by decide), hinit]

/-- Claim C2 amended: against hardware on which every command event reports
completion with the timeout flag (so each GO_IDLE attempt returns Timeout
rather than never completing), initialize() returns NotInitialized after
exactly 1000 GO_IDLE attempts, with no further bring-up steps invoked: the
final trace holds the initialization clock write, 1000 PHY pulses and 1000
GO_IDLE issues and nothing else. A hardware that never sets the
command-done flag instead makes initialize() spin forever. -/
theorem C2_timeout_idle_budget :
    ∀ wfuel rfuel : Nat, 0 < wfuel →
      sd_disk_initialize sysClkEx timeoutEventHw wfuel rfuel sdcardstatus_start 0 St.start
          = some (STA_NOINIT, STA_NOINIT, ⟨1000, 0, 0, 0, idleFailTrace⟩) ∧
      goIdleCount idleFailTrace = 1000 ∧
      initOnlyIdleEvs idleFailTrace = true := by
  intro wfuel rfuel hwf
  obtain ⟨w, rfl⟩ : ∃ w, wfuel = w + 1 := ⟨wfuel - 1, by omega⟩
  refine ⟨?_, ?_, ?_⟩
  · have hinit : sdcard_init sysClkEx timeoutEventHw (w + 1) rfuel St.start
        = some (0, ⟨1000, 0, 0, 0, idleFailTrace⟩) := by
      unfold sdcard_init
      rw [idle_loop_timeout_spin w 1000]
      rfl
    unfold sd_disk_initialize
    rw [if_neg (by simp), if_pos (by decide), hinit]
    rfl
  · rw [goIdleCount, idleFailTrace, List.countP_cons, List.countP_flatten,
      List.map_replicate]
    rw [show List.countP (isCmdNum 0) idleAttempt = 1 from rfl]
    rw [List.sum_replicate]
    rw [show isCmdNum 0 (Ev.clkDividerW
        (sdcard_set_clk_freq_divider sysClkEx SDCARD_CLK_FREQ_INIT)) = false from rfl]
    simp
  · rw [initOnlyIdleEvs, idleFailTrace, List.all_eq_true]
    intro e he
    rcases List.mem_cons.mp he with rfl | he
    · rfl
    · obtain ⟨l, hl, hel⟩ := List.mem_flatten.mp he
      obtain rfl := List.eq_of_mem_replicate hl
      simp only [idleAttempt, List.mem_cons, List.not_mem_nil, or_false] at hel
      rcases hel with rfl | rfl
      · rfl
      · rfl

/-- Witness for the amended C2 at poll budget 1. -/
theorem C2_witness :
    sd_disk_initialize sysClkEx timeoutEventHw 1 1 sdcardstatus_start 0 St.start
        = some (STA_NOINIT, STA_NOINIT, ⟨1000, 0, 0, 0, idleFailTrace⟩) ∧
    goIdleCount idleFailTrace = 1000 ∧
    initOnlyIdleEvs idleFailTrace = true :=
  C2_timeout_idle_budget 1 1 (by decide)

/-! Claim C10 helper lemmas: no component of the bring-up sequence ever
writes 512 into the block-length register. -/

theorem noLen512_trans {s1 s2 s3 : St}
    (h1 : ∃ l, s2.trace = s1.trace ++ l ∧ l.countP (isBlockLenW 512) = 0)
    (h2 : ∃ l, s3.trace = s2.trace ++ l ∧ l.countP (isBlockLenW 512) = 0) :
    ∃ l, s3.trace = s1.trace ++ l ∧ l.countP (isBlockLenW 512) = 0 := by
  obtain ⟨l1, e1, c1⟩ := h1
  obtain ⟨l2, e2, c2⟩ := h2
  exact ⟨l1 ++ l2, by rw [e2, e1, List.append_assoc],
    by rw [List.countP_append, c1, c2]⟩

theorem noLen512_send (hw : Hw) (arg cmd rsp : Nat) (s : St) (wfuel : Nat)
    (r : SDResult) (s' : St)
    (h : sdcard_send_command hw arg cmd rsp s wfuel = some (r, s')) :
    ∃ l, s'.trace = s.trace ++ l ∧ l.countP (isBlockLenW 512) = 0 := by
  have h2 := sdcard_send_command_eq hw arg cmd rsp s wfuel r s' h
  exact ⟨[Ev.cmdIssued arg cmd rsp], by rw [h2], rfl⟩

theorem noLen512_set_clk (sysClk f : Nat) (s : St) :
    ∃ l, (sdcard_set_clk_freq_st sysClk f s).trace = s.trace ++ l ∧
      l.countP (isBlockLenW 512) = 0 :=
  ⟨[Ev.clkDividerW (sdcard_set_clk_freq_divider sysClk f)], rfl, rfl⟩

theorem noLen512_phy (s : St) (v : Nat) :
    ∃ l, (s.emit (Ev.phySettingsW v)).trace = s.trace ++ l ∧
      l.countP (isBlockLenW 512) = 0 :=
  ⟨[Ev.phySettingsW v], rfl, rfl⟩

theorem noLen512_idle_loop (hw : Hw) (wfuel : Nat) :
    ∀ t (s : St) (T : Nat) (s' : St),
      sdcard_init_idle_loop hw wfuel t s = some (T, s') →
      ∃ l, s'.trace = s.trace ++ l ∧ l.countP (isBlockLenW 512) = 0 := by
  intro t
  induction t with
  | zero =>
    intro s T s' h
    simp only [sdcard_init_idle_loop, Option.some.injEq, Prod.mk.injEq] at h
    obtain ⟨-, h2⟩ := h
    subst h2
    exact ⟨[], by rw [List.append_nil], rfl⟩
  | succ n ih =>
    intro s T s' h
    simp only [sdcard_init_idle_loop] at h
    split at h
    · exact absurd h (by simp)
    rename_i r s1 heq
    have e1 : ∃ l, s1.trace = s.trace ++ l ∧ l.countP (isBlockLenW 512) = 0 := by
      have h2 := sdcard_send_command_eq _ _ _ _ _ _ _ _ heq
      exact ⟨[Ev.phyInitW 1] ++ [Ev.cmdIssued 0 0 SDCARD_CTRL_RESPONSE_NONE],
        by rw [h2]; simp [St.emit, List.append_assoc], rfl⟩
    split at h
    · simp only [Option.some.injEq, Prod.mk.injEq] at h
      obtain ⟨-, h2⟩ := h
      subst h2
      exact e1
    exact noLen512_trans e1 (ih _ _ _ h)

theorem noLen512_opcond_loop (hw : Hw) (wfuel : Nat) :
    ∀ t (s : St) (T : Nat) (s' : St),
      sdcard_init_opcond_loop hw wfuel t s = some (T, s') →
      ∃ l, s'.trace = s.trace ++ l ∧ l.countP (isBlockLenW 512) = 0 := by
  intro t
  induction t with
  | zero =>
    intro s T s' h
    simp only [sdcard_init_opcond_loop, Option.some.injEq, Prod.mk.injEq] at h
    obtain ⟨-, h2⟩ := h
    subst h2
    exact ⟨[], by rw [List.append_nil], rfl⟩
  | succ n ih =>
    intro s T s' h
    simp only [sdcard_init_opcond_loop] at h
    split at h
    · exact absurd h (by simp)
    rename_i r1 s1 heq1
    split at h
    · exact absurd h (by simp)
    rename_i r2 s2 heq2
    have e2 := noLen512_trans (noLen512_send _ _ _ _ _ _ _ _ heq1)
      (noLen512_send _ _ _ _ _ _ _ _ heq2)
    split at h
    · simp only [Option.some.injEq, Prod.mk.injEq] at h
      obtain ⟨-, h2⟩ := h
      subst h2
      exact e2
    exact noLen512_trans e2 (ih _ _ _ h)

theorem noLen512_switch (hw : Hw) (mode group value : Nat) (s : St)
    (wfuel rfuel : Nat) (r : SDResult) (s' : St)
    (h : sdcard_switch hw mode group value s wfuel rfuel = some (r, s')) :
    ∃ l, s'.trace = s.trace ++ l ∧ l.countP (isBlockLenW 512) = 0 := by
  obtain ⟨k, hk, hs⟩ := sdcard_switch_eq hw mode group value s wfuel rfuel r s' h
  refine ⟨[Ev.blockLenW 64, Ev.blockCountW 1]
      ++ List.replicate k (Ev.cmdIssued (switchArg mode group value) 6 dataReadShortRsp)
      ++ [Ev.dataDoneWait r], by rw [hs]; simp [List.append_assoc], ?_⟩
  simp [List.countP_append,
    countP_replicate_zero (isBlockLenW 512)
      (Ev.cmdIssued (switchArg mode group value) 6 dataReadShortRsp) rfl,
    List.countP_cons, isBlockLenW]

theorem noLen512_scr (hw : Hw) (s : St) (wfuel rfuel : Nat) (r : SDResult) (s' : St)
    (h : sdcard_app_send_scr hw s wfuel rfuel = some (r, s')) :
    ∃ l, s'.trace = s.trace ++ l ∧ l.countP (isBlockLenW 512) = 0 := by
  obtain ⟨k, hk, hs⟩ := sdcard_app_send_scr_eq hw s wfuel rfuel r s' h
  refine ⟨[Ev.blockLenW 8, Ev.blockCountW 1]
      ++ List.replicate k (Ev.cmdIssued 0 51 dataReadShortRsp)
      ++ [Ev.dataDoneWait r], by rw [hs]; simp [List.append_assoc], ?_⟩
  simp [List.countP_append,
    countP_replicate_zero (isBlockLenW 512) (Ev.cmdIssued 0 51 dataReadShortRsp) rfl,
    List.countP_cons, isBlockLenW]

theorem sdcard_init_after_rca_noLen512 (hw : Hw) (wfuel rfuel rca : Nat)
    (s : St) (res : Nat) (s' : St)
    (h : sdcard_init_after_rca hw wfuel rfuel rca s = some (res, s')) :
    ∃ l, s'.trace = s.trace ++ l ∧ l.countP (isBlockLenW 512) = 0 := by
  unfold sdcard_init_after_rca at h
  split at h
  · exact absurd h (by simp)
  rename_i r6 s6 heq6
  have ext6 := noLen512_send _ _ _ _ _ _ _ _ heq6
  split at h
  · simp only [Option.some.injEq, Prod.mk.injEq] at h
    obtain ⟨-, hX⟩ := h
    subst hX
    exact ext6
  split at h
  · exact absurd h (by simp)
  rename_i r7 s7 heq7
  have ext7 := noLen512_trans ext6 (noLen512_send _ _ _ _ _ _ _ _ heq7)
  split at h
  · simp only [Option.some.injEq, Prod.mk.injEq] at h
    obtain ⟨-, hX⟩ := h
    subst hX
    exact ext7
  split at h
  · exact absurd h (by simp)
  rename_i r8 s8 heq8
  have ext8 := noLen512_trans ext7 (noLen512_send _ _ _ _ _ _ _ _ heq8)
  split at h
  · simp only [Option.some.injEq, Prod.mk.injEq] at h
    obtain ⟨-, hX⟩ := h
    subst hX
    exact ext8
  split at h
  · exact absurd h (by simp)
  rename_i r9 s9 heq9
  have ext9 := noLen512_trans ext8 (noLen512_send _ _ _ _ _ _ _ _ heq9)
  split at h
  · simp only [Option.some.injEq, Prod.mk.injEq] at h
    obtain ⟨-, hX⟩ := h
    subst hX
    exact ext9
  split at h
  · exact absurd h (by simp)
  rename_i r10 s10 heq10
  have ext10 := noLen512_trans ext9 (noLen512_send _ _ _ _ _ _ _ _ heq10)
  split at h
  · simp only [Option.some.injEq, Prod.mk.injEq] at h
    obtain ⟨-, hX⟩ := h
    subst hX
    exact ext10
  split at h
  · exact absurd h (by simp)
  rename_i r11 s11 heq11
  have ext11 := noLen512_trans ext10 (noLen512_trans (noLen512_phy s10 SD_PHY_SPEED_4X)
    (noLen512_switch _ _ _ _ _ _ _ _ _ heq11))
  split at h
  · simp only [Option.some.injEq, Prod.mk.injEq] at h
    obtain ⟨-, hX⟩ := h
    subst hX
    exact ext11
  split at h
  · exact absurd h (by simp)
  rename_i r12 s12 heq12
  have ext12 := noLen512_trans ext11 (noLen512_send _ _ _ _ _ _ _ _ heq12)
  split at h
  · simp only [Option.some.injEq, Prod.mk.injEq] at h
    obtain ⟨-, hX⟩ := h
    subst hX
    exact ext12
  split at h
  · exact absurd h (by simp)
  rename_i r13 s13 heq13
  have ext13 := noLen512_trans ext12 (noLen512_scr _ _ _ _ _ _ heq13)
  split at h
  · simp only [Option.some.injEq, Prod.mk.injEq] at h
    obtain ⟨-, hX⟩ := h
    subst hX
    exact ext13
  split at h
  · exact absurd h (by simp)
  rename_i r14 s14 heq14
  have ext14 := noLen512_trans ext13 (noLen512_send _ _ _ _ _ _ _ _ heq14)
  split at h
  · simp only [Option.some.injEq, Prod.mk.injEq] at h
    obtain ⟨-, hX⟩ := h
    subst hX
    exact ext14
  simp only [Option.some.injEq, Prod.mk.injEq] at h
  obtain ⟨-, hX⟩ := h
  subst hX
  exact ext14

theorem sdcard_init_noLen512 (sysClk : Nat) (hw : Hw) (wfuel rfuel : Nat)
    (s : St) (res : Nat) (s' : St)
    (h : sdcard_init sysClk hw wfuel rfuel s = some (res, s')) :
    ∃ l, s'.trace = s.trace ++ l ∧ l.countP (isBlockLenW 512) = 0 := by
  unfold sdcard_init at h
  split at h
  · exact absurd h (by simp)
  rename_i t1 s1 heq1
  have ext1 := noLen512_trans (noLen512_set_clk sysClk SDCARD_CLK_FREQ_INIT s)
    (noLen512_idle_loop hw wfuel 1000 _ t1 s1 heq1)
  split at h
  · simp only [Option.some.injEq, Prod.mk.injEq] at h
    obtain ⟨-, hX⟩ := h
    subst hX
    exact ext1
  split at h
  · exact absurd h (by simp)
  rename_i r2 s2 heq2
  have ext2 := noLen512_trans ext1 (noLen512_send _ _ _ _ _ _ _ _ heq2)
  split at h
  · simp only [Option.some.injEq, Prod.mk.injEq] at h
    obtain ⟨-, hX⟩ := h
    subst hX
    exact ext2
  split at h
  · exact absurd h (by simp)
  rename_i t3 s3 heq3
  have ext3 := noLen512_trans ext2 (noLen512_trans (noLen512_set_clk sysClk SDCARD_CLK_FREQ s2)
    (noLen512_opcond_loop hw wfuel 1000 _ t3 s3 heq3))
  split at h
  · simp only [Option.some.injEq, Prod.mk.injEq] at h
    obtain ⟨-, hX⟩ := h
    subst hX
    exact ext3
  split at h
  · exact absurd h (by simp)
  rename_i r4 s4 heq4
  have ext4 := noLen512_trans ext3 (noLen512_send _ _ _ _ _ _ _ _ heq4)
  split at h
  · simp only [Option.some.injEq, Prod.mk.injEq] at h
    obtain ⟨-, hX⟩ := h
    subst hX
    exact ext4
  split at h
  · exact absurd h (by simp)
  rename_i r5 s5 heq5
  have ext5 := noLen512_trans ext4 (noLen512_send _ _ _ _ _ _ _ _ heq5)
  split at h
  · simp only [Option.some.injEq, Prod.mk.injEq] at h
    obtain ⟨-, hX⟩ := h
    subst hX
    exact ext5
  exact noLen512_trans ext5 (sdcard_init_after_rca_noLen512 _ _ _ _ _ _ _ h)

/-! Claim C10. -/

/-- Claim C10: the two data-bearing bring-up commands use block geometries
other than 512 — SWITCH_FUNC programs block length 64 and block count 1
before issuing CMD6, and APP_SEND_SCR programs block length 8 and block
count 1 before issuing CMD51 (both orders are visible in the trace shape);
the whole bring-up sequence never writes 512 into the block-length
register; 512 appears only later, as the argument of SET_BLOCKLEN (CMD16)
and as the block length programmed by the block read/write commands before
their command issue. -/
theorem C10_bring_up_block_geometry :
    (∀ (hw : Hw) (mode group value : Nat) (s : St) (wfuel rfuel : Nat)
        (r : SDResult) (s' : St),
      sdcard_switch hw mode group value s wfuel rfuel = some (r, s') →
      ∃ k, 0 < k ∧ s'.trace = s.trace ++ [Ev.blockLenW 64, Ev.blockCountW 1]
        ++ List.replicate k (Ev.cmdIssued (switchArg mode group value) 6 dataReadShortRsp)
        ++ [Ev.dataDoneWait r]) ∧
    (∀ (hw : Hw) (s : St) (wfuel rfuel : Nat) (r : SDResult) (s' : St),
      sdcard_app_send_scr hw s wfuel rfuel = some (r, s') →
      ∃ k, 0 < k ∧ s'.trace = s.trace ++ [Ev.blockLenW 8, Ev.blockCountW 1]
        ++ List.replicate k (Ev.cmdIssued 0 51 dataReadShortRsp)
        ++ [Ev.dataDoneWait r]) ∧
    (∀ (sysClk : Nat) (hw : Hw) (wfuel rfuel : Nat) (s : St) (res : Nat) (s' : St),
      sdcard_init sysClk hw wfuel rfuel s = some (res, s') →
      ∃ l, s'.trace = s.trace ++ l ∧ l.countP (isBlockLenW 512) = 0) ∧
    (∀ (hw : Hw) (blocklen : Nat) (s : St) (wfuel : Nat) (r : SDResult) (s' : St),
      sdcard_app_set_blocklen hw blocklen s wfuel = some (r, s') →
      s'.trace = s.trace ++ [Ev.cmdIssued blocklen 16 SDCARD_CTRL_RESPONSE_SHORT]) ∧
    (∀ (hw : Hw) (addr : Nat) (s : St) (wfuel rfuel : Nat) (r : SDResult) (s' : St),
      sdcard_read_single_block hw addr s wfuel rfuel = some (r, s') →
      ∃ k, 0 < k ∧ s'.trace = s.trace ++ [Ev.blockLenW 512, Ev.blockCountW 1]
        ++ List.replicate k (Ev.cmdIssued addr 17 dataReadShortRsp)
        ++ [Ev.dataDoneWait r]) := by
  refine ⟨?_, ?_, ?_, ?_, ?_⟩
  · intro hw mode group value s wfuel rfuel r s' h
    obtain ⟨k, hk, hs⟩ := sdcard_switch_eq hw mode group value s wfuel rfuel r s' h
    exact ⟨k, hk, by rw [hs]⟩
  · intro hw s wfuel rfuel r s' h
    obtain ⟨k, hk, hs⟩ := sdcard_app_send_scr_eq hw s wfuel rfuel r s' h
    exact ⟨k, hk, by rw [hs]⟩
  · intro sysClk hw wfuel rfuel s res s' h
    exact sdcard_init_noLen512 sysClk hw wfuel rfuel s res s' h
  · intro hw blocklen s wfuel r s' h
    have h2 := sdcard_send_command_eq hw blocklen 16 SDCARD_CTRL_RESPONSE_SHORT s wfuel r s' h
    rw [h2]
  · intro hw addr s wfuel rfuel r s' h
    obtain ⟨k, hk, hs⟩ := sdcard_read_single_block_eq hw addr s wfuel rfuel r s' h
    exact ⟨k, hk, by rw [hs]⟩

/-- Witness for C10 at concrete runs of the switch, the full bring-up and
SET_BLOCKLEN against the always-ok hardware. -/
theorem C10_witness :
    (∃ k, 0 < k ∧
      ((sdcard_switch okRespHw SD_SWITCH_SWITCH SD_GROUP_ACCESSMODE SD_SPEED_SDR25
          St.start 1 1).getD (SDResult.ok, St.start)).2.trace
        = St.start.trace ++ [Ev.blockLenW 64, Ev.blockCountW 1]
          ++ List.replicate k (Ev.cmdIssued
              (switchArg SD_SWITCH_SWITCH SD_GROUP_ACCESSMODE SD_SPEED_SDR25) 6
              dataReadShortRsp)
          ++ [Ev.dataDoneWait ((sdcard_switch okRespHw SD_SWITCH_SWITCH
              SD_GROUP_ACCESSMODE SD_SPEED_SDR25 St.start 1 1).getD
              (SDResult.ok, St.start)).1]) ∧
    (∃ l, (initRunOk.getD (0, St.start)).2.trace = St.start.trace ++ l ∧
      l.countP (isBlockLenW 512) = 0) ∧
    ((sdcard_app_set_blocklen okRespHw 512 St.start 1).getD
        (SDResult.ok, St.start)).2.trace
      = St.start.trace ++ [Ev.cmdIssued 512 16 SDCARD_CTRL_RESPONSE_SHORT] := by
  refine ⟨?_, ?_, ?_⟩
  · exact C10_bring_up_block_geometry.1 okRespHw SD_SWITCH_SWITCH SD_GROUP_ACCESSMODE
      SD_SPEED_SDR25 St.start 1 1 _ _ (by rfl)
  · exact C10_bring_up_block_geometry.2.2.1 sysClkEx okRespHw 1 1 St.start _ _ (by rfl)
  · exact C10_bring_up_block_geometry.2.2.2.1 okRespHw 512 St.start 1 _ _ (by rfl)

end LiteXSdCard
